import Mathlib

/-!
Verification development for the OpenSpace session profile subsystem
(src/scene/profile.cpp): the validating JSON codec, the 1.0 to 1.1 schema
migration, the profile aggregate mutations, the live-state capture, and the
asset script generators.

Modelling conventions:
* The nlohmann JSON text layer (json::parse / json::dump) is external to the
  profile code and lossless; documents are modelled directly as trees.
* Numeric JSON payloads (C++ int / double) are modelled by the type JNumber
  below.  The profile code never performs arithmetic on any numeric field; it
  only copies values between the tree and the structs, so the carrier of a
  numeric value is irrelevant to every statement proved here.
* C++ exceptions (Profile::ParsingError, ghoul::RuntimeError, and
  nlohmann type errors caught and re-wrapped by the Profile constructor) are
  modelled with Except.
* Dereferencing a std::optional that holds no value (operator* / operator->
  without a has_value check) is undefined behaviour in C++; it is modelled as
  a failing operation (derefOpt), the only failure of the script generators.
-/

/-- Numeric JSON payloads.  The profile code only copies numbers (never
computes with them), so they are modelled as integers. -/
abbrev JNumber := Int

/-- A generic JSON-like tree, the representation produced by nlohmann
json::parse and consumed by the codec. -/
inductive Json where
  | null : Json
  | str : String → Json
  | num : JNumber → Json
  | bool : Bool → Json
  | arr : List Json → Json
  | obj : List (String × Json) → Json

/-- First-occurrence key lookup in an object field list.  Documents produced
by json::parse have unique keys, so the occurrence choice is immaterial. -/
def lookupKey : List (String × Json) → String → Option Json
  | [], _ => none
  | (k, v) :: rest, key => if k = key then some v else lookupKey rest key

/-- Models nlohmann find: on an object, key lookup; on any other value,
find returns the end iterator, i.e. no result. -/
def Json.getKey? : Json → String → Option Json
  | .obj l, key => lookupKey l key
  | _, _ => none

/-- Severity of a parsing diagnostic (Profile::ParsingError::Severity). -/
inductive Severity where
  | Info : Severity
  | Error : Severity
deriving DecidableEq

/-- Profile::ParsingError: a severity plus the human readable message.  The
C++ message wraps dotted paths in single quote characters; the quotes are
left out of the modelled messages. -/
structure ParsingError where
  severity : Severity
  message : String
deriving DecidableEq

/-- Models json::at: lookup that fails (out_of_range, caught and re-wrapped
as a ParsingError by the Profile constructor) when the key is absent or the
value is not an object. -/
def Json.atKey (j : Json) (key : String) : Except ParsingError Json :=
  match j.getKey? key with
  | some v => .ok v
  | none => .error ⟨.Error, "out_of_range: key " ++ key ++ " not found"⟩

/-- Models the json operator[] read: on an object a missing key reads as a
null value; on a non-object the operator throws a type error (caught and
re-wrapped as a ParsingError by the Profile constructor). -/
def Json.index (j : Json) (key : String) : Except ParsingError Json :=
  match j with
  | .obj l =>
    match lookupKey l key with
    | some v => .ok v
    | none => .ok .null
  | _ => .error ⟨.Error, "type_error: cannot use operator[] with " ++ key⟩

/-- Replace the value of the first occurrence of a key, or append the pair at
the end; models map-backed json operator[] assignment. -/
def setPairs : List (String × Json) → String → Json → List (String × Json)
  | [], k, v => [(k, v)]
  | (k0, v0) :: rest, k, v =>
    if k0 = k then (k, v) :: rest else (k0, v0) :: setPairs rest k v

/-- Models json operator[] assignment.  Every caller in the profile code has
already established that the target is an object, so the non-object branch
(a type error in C++) is unreachable and modelled as the identity. -/
def Json.setKey : Json → String → Json → Json
  | .obj l, k, v => .obj (setPairs l k v)
  | j, _, _ => j

/-- Models json get of a string (throws a type error otherwise, caught and
re-wrapped as a ParsingError by the Profile constructor). -/
def Json.getStr : Json → Except ParsingError String
  | .str s => .ok s
  | _ => .error ⟨.Error, "type_error: value is not a string"⟩

/-- Models json get of a number. -/
def Json.getNum : Json → Except ParsingError JNumber
  | .num n => .ok n
  | _ => .error ⟨.Error, "type_error: value is not a number"⟩

/-- Models json get of a boolean. -/
def Json.getBool : Json → Except ParsingError Bool
  | .bool b => .ok b
  | _ => .error ⟨.Error, "type_error: value is not a boolean"⟩

/-- The JSON kinds distinguished by checkValue, one per member check
function passed at its call sites. -/
inductive JKind where
  | string : JKind
  | number : JKind
  | object : JKind
  | array : JKind
  | boolean : JKind

/-- Which check function a value satisfies (is_string, is_number, ...). -/
def Json.isKind : Json → JKind → Bool
  | .str _, .string => true
  | .num _, .number => true
  | .obj _, .object => true
  | .arr _, .array => true
  | .bool _, .boolean => true
  | _, _ => false

/-- The wording used by checkValue for each expected kind. -/
def kindText : JKind → String
  | .string => "a string"
  | .number => "a number"
  | .object => "an object"
  | .array => "an array"
  | .boolean => "a boolean"

/-- checkValue from profile.cpp: a missing non-optional key or a present key
of the wrong kind raises a fatal ParsingError naming the dotted path. -/
def checkValue (j : Json) (key : String) (kind : JKind) (sectionPath : String)
    (isOptional : Bool) : Except ParsingError Unit :=
  match j.getKey? key with
  | none =>
    if isOptional then .ok ()
    else .error ⟨.Error, sectionPath ++ "." ++ key ++ " field is missing"⟩
  | some v =>
    if v.isKind kind then .ok ()
    else .error ⟨.Error, sectionPath ++ "." ++ key ++ " must be " ++ kindText kind⟩

/-- checkExtraKeys from profile.cpp only logs unrecognized keys on the
diagnostic channel; it never alters control flow or data and is therefore
modelled as a no-op. -/
def checkExtraKeys (_j : Json) (_sectionPath : String)
    (_allowedKeys : List String) : Except ParsingError Unit :=
  .ok ()

/-- Element-wise conversion of a JSON array, as json get of a std vector:
the first failing element aborts the whole conversion. -/
def mapExcept (f : Json → Except ParsingError α) :
    List Json → Except ParsingError (List α)
  | [] => .ok []
  | j :: js => do
    let a ← f j
    let as ← mapExcept f js
    pure (a :: as)

/-- Modelled from the spec: the key-with-modifier type and its canonical
textual mapping (stringToKey / keyToString) live outside the provided
sources.  The spec describes a canonical key-to-text mapping, modelled here
as an abstract wrapper around the textual form, making the two maps mutually
inverse. -/
structure KeyWithModifier where
  text : String
deriving DecidableEq

/-- Modelled from the spec: parse the textual form of a key. -/
def stringToKey (s : String) : KeyWithModifier := ⟨s⟩

/-- Modelled from the spec: render a key in its canonical textual form. -/
def keyToString (k : KeyWithModifier) : String := k.text

/-- Profile::Version. -/
structure Profile.Version where
  major : JNumber
  minor : JNumber
deriving DecidableEq

/-- Modelled from the spec: Profile::CurrentVersion is declared in the
profile header, which is not among the provided sources.  The engine has a
single migration step targeting schema version 1.1, its declared current
version. -/
def Profile.CurrentVersion : Profile.Version := ⟨1, 1⟩

/-- Profile::Module. -/
structure Profile.Module where
  name : String
  loadedInstruction : Option String := none
  notLoadedInstruction : Option String := none
deriving DecidableEq

/-- Profile::Meta. -/
structure Profile.Meta where
  name : Option String := none
  version : Option String := none
  description : Option String := none
  author : Option String := none
  url : Option String := none
  license : Option String := none
deriving DecidableEq

/-- Profile::Property::SetType. -/
inductive Profile.Property.SetType where
  | SetPropertyValue : Profile.Property.SetType
  | SetPropertyValueSingle : Profile.Property.SetType
deriving DecidableEq

/-- Profile::Property. -/
structure Profile.Property where
  setType : Profile.Property.SetType
  name : String
  value : String
deriving DecidableEq

/-- Profile::Action. -/
structure Profile.Action where
  identifier : String
  documentation : String
  name : String
  guiPath : String
  isLocal : Bool
  script : String
deriving DecidableEq

/-- Profile::Keybinding (current schema): a key referencing an action. -/
structure Profile.Keybinding where
  key : KeyWithModifier
  action : String
deriving DecidableEq

/-- Profile::Time::Type. -/
inductive Profile.Time.Type where
  | Absolute : Profile.Time.Type
  | Relative : Profile.Time.Type
deriving DecidableEq

/-- Profile::Time. -/
structure Profile.Time where
  type : Profile.Time.Type
  value : String
deriving DecidableEq

/-- glm::dvec3 as used by the camera sections; components carried opaquely. -/
structure dvec3 where
  x : JNumber
  y : JNumber
  z : JNumber
deriving DecidableEq

/-- Profile::CameraNavState. -/
structure Profile.CameraNavState where
  anchor : String
  aim : Option String := none
  referenceFrame : String
  position : dvec3
  up : Option dvec3 := none
  yaw : Option JNumber := none
  pitch : Option JNumber := none
deriving DecidableEq

/-- Modelled from the spec: the CameraNavState discriminator constant
(member named Type in C++, renamed here because Type is reserved). -/
def Profile.CameraNavState.typeTag : String := "navState"

/-- Profile::CameraGoToGeo. -/
structure Profile.CameraGoToGeo where
  anchor : String
  latitude : JNumber
  longitude : JNumber
  altitude : Option JNumber := none
deriving DecidableEq

/-- Modelled from the spec: the CameraGoToGeo discriminator constant. -/
def Profile.CameraGoToGeo.typeTag : String := "goToGeo"

/-- The camera variant (std::variant of the two camera structs). -/
inductive Profile.Camera where
  | navState : Profile.CameraNavState → Profile.Camera
  | goToGeo : Profile.CameraGoToGeo → Profile.Camera
deriving DecidableEq

/-- The Profile aggregate.  ignoreUpdates is transient state, never
serialized. -/
structure Profile where
  version : Profile.Version := Profile.CurrentVersion
  modules : List Profile.Module := []
  meta : Option Profile.Meta := none
  assets : List String := []
  properties : List Profile.Property := []
  actions : List Profile.Action := []
  keybindings : List Profile.Keybinding := []
  time : Option Profile.Time := none
  deltaTimes : List JNumber := []
  camera : Option Profile.Camera := none
  markNodes : List String := []
  additionalScripts : List String := []
  ignoreUpdates : Bool := false
deriving DecidableEq

/-! ## Serialization (the to_json overloads and Profile::serialize) -/

/-- A field contributed to an object only when present (the if has_value
pattern of the to_json overloads and of Profile::serialize). -/
def optPair (k : String) : Option Json → List (String × Json)
  | none => []
  | some v => [(k, v)]

/-- to_json for Profile::Version. -/
def toJsonVersion (v : Profile.Version) : Json :=
  .obj [("major", .num v.major), ("minor", .num v.minor)]

/-- to_json for Profile::Module. -/
def toJsonModule (m : Profile.Module) : Json :=
  .obj ([("name", .str m.name)]
    ++ (optPair "loadedInstruction" (m.loadedInstruction.map .str)
    ++ optPair "notLoadedInstruction" (m.notLoadedInstruction.map .str)))

/-- to_json for Profile::Meta. -/
def toJsonMeta (v : Profile.Meta) : Json :=
  .obj (optPair "name" (v.name.map .str)
    ++ (optPair "version" (v.version.map .str)
    ++ (optPair "description" (v.description.map .str)
    ++ (optPair "author" (v.author.map .str)
    ++ (optPair "url" (v.url.map .str)
    ++ optPair "license" (v.license.map .str))))))

/-- to_json for Profile::Property::SetType (closed enum rendering). -/
def toJsonSetType : Profile.Property.SetType → Json
  | .SetPropertyValue => .str "setPropertyValue"
  | .SetPropertyValueSingle => .str "setPropertyValueSingle"

/-- to_json for Profile::Property. -/
def toJsonProperty (v : Profile.Property) : Json :=
  .obj [("type", toJsonSetType v.setType), ("name", .str v.name),
        ("value", .str v.value)]

/-- to_json for Profile::Action. -/
def toJsonAction (v : Profile.Action) : Json :=
  .obj [("identifier", .str v.identifier),
        ("documentation", .str v.documentation),
        ("name", .str v.name),
        ("gui_path", .str v.guiPath),
        ("is_local", .bool v.isLocal),
        ("script", .str v.script)]

/-- to_json for Profile::Keybinding. -/
def toJsonKeybinding (v : Profile.Keybinding) : Json :=
  .obj [("key", .str (keyToString v.key)), ("action", .str v.action)]

/-- to_json for Profile::Time::Type. -/
def toJsonTimeType : Profile.Time.Type → Json
  | .Absolute => .str "absolute"
  | .Relative => .str "relative"

/-- to_json for Profile::Time. -/
def toJsonTime (v : Profile.Time) : Json :=
  .obj [("type", toJsonTimeType v.type), ("value", .str v.value)]

/-- The nested x y z object written for positions and up vectors. -/
def toJsonVec3 (v : dvec3) : Json :=
  .obj [("x", .num v.x), ("y", .num v.y), ("z", .num v.z)]

/-- to_json for Profile::CameraNavState. -/
def toJsonCameraNavState (v : Profile.CameraNavState) : Json :=
  .obj ([("type", .str Profile.CameraNavState.typeTag),
         ("anchor", .str v.anchor)]
    ++ (optPair "aim" (v.aim.map .str)
    ++ ([("frame", .str v.referenceFrame),
         ("position", toJsonVec3 v.position)]
    ++ (optPair "up" (v.up.map toJsonVec3)
    ++ (optPair "yaw" (v.yaw.map .num)
    ++ optPair "pitch" (v.pitch.map .num))))))

/-- to_json for Profile::CameraGoToGeo. -/
def toJsonCameraGoToGeo (v : Profile.CameraGoToGeo) : Json :=
  .obj ([("type", .str Profile.CameraGoToGeo.typeTag),
         ("anchor", .str v.anchor),
         ("latitude", .num v.latitude),
         ("longitude", .num v.longitude)]
    ++ optPair "altitude" (v.altitude.map .num))

/-- The std::visit dispatch performed by Profile::serialize on the camera
variant. -/
def toJsonCamera : Profile.Camera → Json
  | .navState c => toJsonCameraNavState c
  | .goToGeo c => toJsonCameraGoToGeo c

/-- Wrap a list in an array only when it is nonempty, as the empty checks in
Profile::serialize. -/
def nonemptyArr (l : List Json) : Option Json :=
  if l.isEmpty then none else some (.arr l)

/-- Profile::serialize, at the tree level (the final dump to text is the
external nlohmann layer).  Fields are written in the source order; every
absent optional and every empty list contributes nothing. -/
def Profile.serializeJson (p : Profile) : Json :=
  .obj (optPair "version" (some (toJsonVersion p.version))
    ++ (optPair "modules" (nonemptyArr (p.modules.map toJsonModule))
    ++ (optPair "meta" (p.meta.map toJsonMeta)
    ++ (optPair "assets" (nonemptyArr (p.assets.map Json.str))
    ++ (optPair "properties" (nonemptyArr (p.properties.map toJsonProperty))
    ++ (optPair "actions" (nonemptyArr (p.actions.map toJsonAction))
    ++ (optPair "keybindings" (nonemptyArr (p.keybindings.map toJsonKeybinding))
    ++ (optPair "time" (p.time.map toJsonTime)
    ++ (optPair "delta_times" (nonemptyArr (p.deltaTimes.map Json.num))
    ++ (optPair "camera" (p.camera.map toJsonCamera)
    ++ (optPair "mark_nodes" (nonemptyArr (p.markNodes.map Json.str))
    ++ optPair "additional_scripts"
         (nonemptyArr (p.additionalScripts.map Json.str)))))))))))))

/-! ## Decoding (the from_json overloads) -/

/-- An optional string member read after its checkValue (the find guard plus
get pattern of the from_json overloads). -/
def optStrField (j : Json) (k : String) : Except ParsingError (Option String) :=
  match j.getKey? k with
  | none => .ok none
  | some x =>
    match x.getStr with
    | .ok s => .ok (some s)
    | .error e => .error e

/-- An optional numeric member read after its checkValue. -/
def optNumField (j : Json) (k : String) : Except ParsingError (Option JNumber) :=
  match j.getKey? k with
  | none => .ok none
  | some x =>
    match x.getNum with
    | .ok n => .ok (some n)
    | .error e => .error e

/-- from_json for Profile::Version. -/
def fromJsonVersion (j : Json) : Except ParsingError Profile.Version := do
  let _ ← checkValue j "major" .number "version" false
  let _ ← checkValue j "minor" .number "version" false
  let _ ← checkExtraKeys j "version" ["major", "minor"]
  let major ← (← j.index "major").getNum
  let minor ← (← j.index "minor").getNum
  pure ⟨major, minor⟩

/-- from_json for Profile::Module. -/
def fromJsonModule (j : Json) : Except ParsingError Profile.Module := do
  let _ ← checkValue j "name" .string "module" false
  let _ ← checkValue j "loadedInstruction" .string "module" true
  let _ ← checkValue j "notLoadedInstruction" .string "module" true
  let _ ← checkExtraKeys j "module"
    ["name", "loadedInstruction", "notLoadedInstruction"]
  let name ← (← j.index "name").getStr
  let li ← optStrField j "loadedInstruction"
  let nli ← optStrField j "notLoadedInstruction"
  pure ⟨name, li, nli⟩

/-- from_json for Profile::Meta. -/
def fromJsonMeta (j : Json) : Except ParsingError Profile.Meta := do
  let _ ← checkValue j "name" .string "meta" true
  let _ ← checkValue j "version" .string "meta" true
  let _ ← checkValue j "description" .string "meta" true
  let _ ← checkValue j "author" .string "meta" true
  let _ ← checkValue j "url" .string "meta" true
  let _ ← checkValue j "license" .string "meta" true
  let _ ← checkExtraKeys j "meta"
    ["name", "version", "description", "author", "url", "license"]
  let name ← optStrField j "name"
  let version ← optStrField j "version"
  let description ← optStrField j "description"
  let author ← optStrField j "author"
  let url ← optStrField j "url"
  let license ← optStrField j "license"
  pure ⟨name, version, description, author, url, license⟩

/-- from_json for Profile::Property::SetType: exact matching against the
closed enum strings. -/
def fromJsonSetType (j : Json) : Except ParsingError Profile.Property.SetType := do
  let value ← j.getStr
  if value = "setPropertyValue" then
    pure .SetPropertyValue
  else if value = "setPropertyValueSingle" then
    pure .SetPropertyValueSingle
  else
    .error ⟨.Error, "Unknown property set type"⟩

/-- from_json for Profile::Property. -/
def fromJsonProperty (j : Json) : Except ParsingError Profile.Property := do
  let _ ← checkValue j "type" .string "property" false
  let _ ← checkValue j "name" .string "property" false
  let _ ← checkValue j "value" .string "property" false
  let _ ← checkExtraKeys j "property" ["type", "name", "value"]
  let setType ← fromJsonSetType (← j.index "type")
  let name ← (← j.index "name").getStr
  let value ← (← j.index "value").getStr
  pure ⟨setType, name, value⟩

/-- from_json for Profile::Action. -/
def fromJsonAction (j : Json) : Except ParsingError Profile.Action := do
  let _ ← checkValue j "identifier" .string "action" false
  let _ ← checkValue j "documentation" .string "action" false
  let _ ← checkValue j "name" .string "action" false
  let _ ← checkValue j "gui_path" .string "action" false
  let _ ← checkValue j "is_local" .boolean "action" false
  let _ ← checkValue j "script" .string "action" false
  let _ ← checkExtraKeys j "action"
    ["identifier", "documentation", "name", "gui_path", "is_local", "script"]
  let identifier ← (← j.index "identifier").getStr
  let documentation ← (← j.index "documentation").getStr
  let name ← (← j.index "name").getStr
  let guiPath ← (← j.index "gui_path").getStr
  let isLocal ← (← j.index "is_local").getBool
  let script ← (← j.index "script").getStr
  pure ⟨identifier, documentation, name, guiPath, isLocal, script⟩

/-- from_json for Profile::Keybinding (current schema). -/
def fromJsonKeybinding (j : Json) : Except ParsingError Profile.Keybinding := do
  let _ ← checkValue j "key" .string "keybinding" false
  let _ ← checkValue j "action" .string "keybinding" false
  let _ ← checkExtraKeys j "keybinding" ["key", "action"]
  let keyText ← (← j.atKey "key").getStr
  let action ← (← j.index "action").getStr
  pure ⟨stringToKey keyText, action⟩

/-- from_json for Profile::Time::Type. -/
def fromJsonTimeType (j : Json) : Except ParsingError Profile.Time.Type := do
  let value ← j.getStr
  if value = "absolute" then
    pure .Absolute
  else if value = "relative" then
    pure .Relative
  else
    .error ⟨.Error, "Unknown time type"⟩

/-- from_json for Profile::Time. -/
def fromJsonTime (j : Json) : Except ParsingError Profile.Time := do
  let _ ← checkValue j "type" .string "time" false
  let _ ← checkValue j "value" .string "time" false
  let _ ← checkExtraKeys j "time" ["type", "value"]
  let type ← fromJsonTimeType (← j.index "type")
  let value ← (← j.index "value").getStr
  pure ⟨type, value⟩

/-- The x y z reads for a position or up object (performed after the
checkValue calls on the nested object). -/
def fromJsonVec3 (j : Json) : Except ParsingError dvec3 := do
  let x ← (← j.index "x").getNum
  let y ← (← j.index "y").getNum
  let z ← (← j.index "z").getNum
  pure ⟨x, y, z⟩

/-- from_json for Profile::CameraNavState.  The ghoul_assert on the
discriminator is a debug-only assertion, guaranteed by the dispatch in the
Profile constructor, and is therefore not modelled. -/
def fromJsonCameraNavState (j : Json) :
    Except ParsingError Profile.CameraNavState := do
  let _ ← checkValue j "anchor" .string "camera" false
  let _ ← checkValue j "aim" .string "camera" true
  let _ ← checkValue j "frame" .string "camera" false
  let _ ← checkValue j "position" .object "camera" false
  let pj ← j.index "position"
  let _ ← checkValue pj "x" .number "camera.position" false
  let _ ← checkValue pj "y" .number "camera.position" false
  let _ ← checkValue pj "z" .number "camera.position" false
  let _ ← checkExtraKeys pj "camera.position" ["x", "y", "z"]
  let _ ← checkValue j "up" .object "camera" true
  let _ ←
    match j.getKey? "up" with
    | some uj => do
      let _ ← checkValue uj "x" .number "camera.up" false
      let _ ← checkValue uj "y" .number "camera.up" false
      let _ ← checkValue uj "z" .number "camera.up" false
      checkExtraKeys uj "camera.up" ["x", "y", "z"]
    | none => pure ()
  let _ ← checkValue j "yaw" .number "camera" true
  let _ ← checkValue j "pitch" .number "camera" true
  let _ ← checkExtraKeys j "camera"
    ["type", "anchor", "aim", "frame", "position", "up", "yaw", "pitch"]
  let anchor ← (← j.index "anchor").getStr
  let aim ← optStrField j "aim"
  let referenceFrame ← (← j.index "frame").getStr
  let position ← fromJsonVec3 pj
  let up ←
    match j.getKey? "up" with
    | some uj => do
      let u ← fromJsonVec3 uj
      pure (some u)
    | none => pure none
  let yaw ← optNumField j "yaw"
  let pitch ← optNumField j "pitch"
  pure ⟨anchor, aim, referenceFrame, position, up, yaw, pitch⟩

/-- from_json for Profile::CameraGoToGeo. -/
def fromJsonCameraGoToGeo (j : Json) :
    Except ParsingError Profile.CameraGoToGeo := do
  let _ ← checkValue j "anchor" .string "camera" false
  let _ ← checkValue j "latitude" .number "camera" false
  let _ ← checkValue j "longitude" .number "camera" false
  let _ ← checkValue j "altitude" .number "camera" true
  let _ ← checkExtraKeys j "camera"
    ["type", "anchor", "latitude", "longitude", "altitude"]
  let anchor ← (← j.index "anchor").getStr
  let latitude ← (← j.index "latitude").getNum
  let longitude ← (← j.index "longitude").getNum
  let altitude ← optNumField j "altitude"
  pure ⟨anchor, latitude, longitude, altitude⟩

/-! ## The frozen version 1.0 schema and the 1.0 to 1.1 migration step -/

/-- version10::Keybinding: the 1.0 keybinding still carrying its own inline
script. -/
structure version10.Keybinding where
  key : KeyWithModifier
  documentation : String
  name : String
  guiPath : String
  isLocal : Bool := true
  script : String
deriving DecidableEq

/-- from_json for version10::Keybinding. -/
def version10.fromJsonKeybinding (j : Json) :
    Except ParsingError version10.Keybinding := do
  let _ ← checkValue j "key" .string "keybinding" false
  let _ ← checkValue j "documentation" .string "keybinding" false
  let _ ← checkValue j "name" .string "keybinding" false
  let _ ← checkValue j "gui_path" .string "keybinding" false
  let _ ← checkValue j "is_local" .boolean "keybinding" false
  let _ ← checkValue j "script" .string "keybinding" false
  let _ ← checkExtraKeys j "keybinding"
    ["key", "documentation", "name", "gui_path", "is_local", "script"]
  let keyText ← (← j.atKey "key").getStr
  let documentation ← (← j.index "documentation").getStr
  let name ← (← j.index "name").getStr
  let guiPath ← (← j.index "gui_path").getStr
  let isLocal ← (← j.index "is_local").getBool
  let script ← (← j.index "script").getStr
  pure ⟨stringToKey keyText, documentation, name, guiPath, isLocal, script⟩

/-- The action generated for the 1.0 keybinding at position i. -/
def version10.actionAt (i : Nat) (kb : version10.Keybinding) : Profile.Action :=
  { identifier := "profile.keybind." ++ toString i
    documentation := kb.documentation
    name := kb.name
    guiPath := kb.guiPath
    isLocal := kb.isLocal
    script := kb.script }

/-- The reduced keybinding generated for the 1.0 keybinding at position i. -/
def version10.keybindingAt (i : Nat) (kb : version10.Keybinding) :
    Profile.Keybinding :=
  { key := kb.key, action := "profile.keybind." ++ toString i }

/-- The tree written back by convertVersion10to11: the derived actions
array, the reduced keybindings array, and the rewritten version field. -/
def version10.migratedDoc (profile : Json)
    (kbs : List version10.Keybinding) : Json :=
  ((profile.setKey "actions"
      (.arr ((kbs.enum.map fun ik => version10.actionAt ik.1 ik.2).map
        toJsonAction))).setKey "keybindings"
      (.arr ((kbs.enum.map fun ik => version10.keybindingAt ik.1 ik.2).map
        toJsonKeybinding))).setKey "version" (toJsonVersion ⟨1, 1⟩)

/-- version10::convertVersion10to11: restructures the 1.0 keybindings into a
derived actions list plus a reduced keybindings list referencing them, then
rewrites the version field to 1.1.  When no keybindings key exists the tree
is returned unchanged.  Parsing failures inside the step surface as ordinary
decode-time errors (caught and re-wrapped by the Profile constructor). -/
def version10.convertVersion10to11 (profile : Json) :
    Except ParsingError Json :=
  match profile.getKey? "keybindings" with
  | none => .ok profile
  | some (.arr kjs) =>
    (mapExcept version10.fromJsonKeybinding kjs) >>= fun kbs =>
      pure (version10.migratedDoc profile kbs)
  | some _ => .error ⟨.Error, "type_error: keybindings is not an array"⟩

/-- The migration dispatch at the top of the Profile constructor: a 1.0
document runs the single registered step and then re-reads the version
field; any other version performs zero migration steps. -/
def migrate (doc : Json) (v : Profile.Version) :
    Except ParsingError (Json × Profile.Version) :=
  if v.major = 1 ∧ v.minor = 0 then
    version10.convertVersion10to11 doc >>= fun doc1 =>
      doc1.atKey "version" >>= fun vj =>
        fromJsonVersion vj >>= fun v1 => pure (doc1, v1)
  else .ok (doc, v)

/-! ## The Profile constructor (decode) -/

/-- A list-valued top-level section: absent decodes as the empty list; a
present non-array value is a type error; a present array converts element
by element. -/
def sectionList (doc : Json) (key : String)
    (f : Json → Except ParsingError α) : Except ParsingError (List α) :=
  match doc.getKey? key with
  | none => .ok []
  | some (.arr js) => mapExcept f js
  | some _ => .error ⟨.Error, "type_error: " ++ key ++ " is not an array"⟩

/-- An optional object-valued top-level section. -/
def sectionOpt (doc : Json) (key : String)
    (f : Json → Except ParsingError α) : Except ParsingError (Option α) :=
  match doc.getKey? key with
  | none => .ok none
  | some j =>
    match f j with
    | .ok a => .ok (some a)
    | .error e => .error e

/-- Whether a json value compares equal to a constant string, as the json
equality operator used on the camera discriminator. -/
def jsonEqString (t : Json) (s : String) : Bool :=
  match t with
  | .str s1 => s1 = s
  | _ => false

/-- The camera variant dispatch of the Profile constructor: read the type
discriminator with operator[], compare it against the two variant constants,
and reject anything else as an unknown camera type. -/
def decodeCameraValue (c : Json) : Except ParsingError Profile.Camera :=
  match c.index "type" with
  | .error e => .error e
  | .ok t =>
    if jsonEqString t Profile.CameraNavState.typeTag then
      match fromJsonCameraNavState c with
      | .ok v => .ok (.navState v)
      | .error e => .error e
    else if jsonEqString t Profile.CameraGoToGeo.typeTag then
      match fromJsonCameraGoToGeo c with
      | .ok v => .ok (.goToGeo v)
      | .error e => .error e
    else .error ⟨.Error, "Unknown camera type"⟩

/-- The camera top-level section of the Profile constructor. -/
def decodeCamera (doc : Json) : Except ParsingError (Option Profile.Camera) :=
  match doc.getKey? "camera" with
  | none => .ok none
  | some c =>
    match decodeCameraValue c with
    | .ok cam => .ok (some cam)
    | .error e => .error e

/-- Profile::Profile(content): decode a document tree into a Profile.
Reads and validates the version, applies the 1.0 to 1.1 migration step when
needed, then decodes every optional top-level section in source order. -/
def decodeProfile (doc0 : Json) : Except ParsingError Profile := do
  let vj ← doc0.atKey "version"
  let v0 ← fromJsonVersion vj
  let dv ← migrate doc0 v0
  let doc := dv.1
  let modules ← sectionList doc "modules" fromJsonModule
  let meta ← sectionOpt doc "meta" fromJsonMeta
  let assets ← sectionList doc "assets" Json.getStr
  let props ← sectionList doc "properties" fromJsonProperty
  let actions ← sectionList doc "actions" fromJsonAction
  let keybindings ← sectionList doc "keybindings" fromJsonKeybinding
  let time ← sectionOpt doc "time" fromJsonTime
  let deltaTimes ← sectionList doc "delta_times" Json.getNum
  let camera ← decodeCamera doc
  let markNodes ← sectionList doc "mark_nodes" Json.getStr
  let additionalScripts ← sectionList doc "additional_scripts" Json.getStr
  pure { version := dv.2
         modules := modules
         meta := meta
         assets := assets
         properties := props
         actions := actions
         keybindings := keybindings
         time := time
         deltaTimes := deltaTimes
         camera := camera
         markNodes := markNodes
         additionalScripts := additionalScripts
         ignoreUpdates := false }

/-! ## Profile aggregate mutations -/

/-- Profile::addAsset: append the path unless it is already present or
updates are ignored. -/
def Profile.addAsset (p : Profile) (path : String) : Profile :=
  if p.ignoreUpdates then p
  else if p.assets.contains path then p
  else { p with assets := p.assets ++ [path] }

/-- Profile::removeAsset: erase the first matching entry; removing an absent
path throws a ghoul::RuntimeError; a no-op when updates are ignored. -/
def Profile.removeAsset (p : Profile) (path : String) :
    Except String Profile :=
  if p.ignoreUpdates then .ok p
  else if p.assets.contains path then
    .ok { p with assets := p.assets.erase path }
  else
    .error ("Tried to remove non-existing asset " ++ path)

/-! ## The live property graph and the capture operation -/

/-- Modelled from the spec: the live state source interface (the properties
library is outside the provided sources) exposes, per property, a stable
fully qualified identifier, a changed-since-start flag, and a textual value
accessor. -/
structure properties.Property where
  fullyQualifiedIdentifier : String
  hasChanged : Bool
  getStringValue : String
deriving DecidableEq

/-- Modelled from the spec: an owner node of the live property graph exposes
its child sub-owners and its direct properties. -/
inductive properties.PropertyOwner where
  | mk : List properties.PropertyOwner → List properties.Property →
      properties.PropertyOwner

/-- The child sub-owners of an owner node. -/
def properties.PropertyOwner.propertySubOwners :
    properties.PropertyOwner → List properties.PropertyOwner
  | .mk subs _ => subs

/-- The direct properties of an owner node. -/
def properties.PropertyOwner.properties :
    properties.PropertyOwner → List properties.Property
  | .mk _ props => props

mutual

/-- changedProperties from profile.cpp: depth-first collection of every
changed property, recursing into the sub-owners of a node before examining
the direct properties of the node itself. -/
def changedProperties : properties.PropertyOwner → List properties.Property
  | .mk subs props =>
    changedPropertiesList subs ++ props.filter fun p => p.hasChanged

/-- The concatenation of the changed properties of a list of sub-owners, in
order (the accumulation loop of changedProperties). -/
def changedPropertiesList :
    List properties.PropertyOwner → List properties.Property
  | [] => []
  | o :: os => changedProperties o ++ changedPropertiesList os

end

/-- Modelled from the spec: the navigation state snapshot handed to the
capture operation, with the fields the capture copies verbatim into a
CameraNavState. -/
structure NavigationState where
  anchor : String
  aim : Option String := none
  referenceFrame : String
  position : dvec3
  up : Option dvec3 := none
  yaw : Option JNumber := none
  pitch : Option JNumber := none
deriving DecidableEq

/-- The Property entry appended to the profile for one changed live
property. -/
def capturedProperty (pr : properties.Property) : Profile.Property :=
  { setType := .SetPropertyValueSingle
    name := pr.fullyQualifiedIdentifier
    value := pr.getStringValue }

/-- Profile::saveCurrentSettingsToProfile.  The delta time step presets are
read from a process-wide time manager in C++ and are passed here as an
explicit argument, as the spec prescribes for the reimplementation. -/
def Profile.saveCurrentSettingsToProfile (p : Profile)
    (rootOwner : properties.PropertyOwner) (currentTime : String)
    (navState : NavigationState) (deltaTimeSteps : List JNumber) : Profile :=
  { p with
    version := Profile.CurrentVersion
    properties := p.properties ++ (changedProperties rootOwner).map capturedProperty
    time := some ⟨.Absolute, currentTime⟩
    deltaTimes := deltaTimeSteps
    camera := some (.navState
      { anchor := navState.anchor
        aim := navState.aim
        referenceFrame := navState.referenceFrame
        position := navState.position
        up := navState.up
        yaw := navState.yaw
        pitch := navState.pitch }) }

/-! ## Script generators -/

/-- The failure class of the script generators. -/
inductive GenError where
  | emptyOptional : GenError
deriving DecidableEq

/-- Dereference of a std::optional without a has_value guard (operator* or
operator->): undefined behaviour in C++ when the optional is empty,
modelled as the only failing operation of the generators. -/
def derefOpt : Option α → Except GenError α
  | some a => .ok a
  | none => .error .emptyOptional

/-- The line generated for one module entry. -/
def moduleLine (name li nli : String) : String :=
  "if openspace.modules.isLoaded(\"" ++ name ++ "\") then " ++ li
    ++ " else " ++ nli ++ " end\n"

/-- The accumulation loop of convertToAsset_modules. -/
def modulesOutput : List Profile.Module → Except GenError String
  | [] => .ok ""
  | m :: ms => do
    let li ← derefOpt m.loadedInstruction
    let nli ← derefOpt m.notLoadedInstruction
    let rest ← modulesOutput ms
    pure (moduleLine m.name li nli ++ rest)

/-- convertToAsset_modules: one conditional statement per module; both
instruction branches are dereferenced without a has_value guard. -/
def convertToAsset_modules (p : Profile) : Except GenError String :=
  modulesOutput p.modules

/-- convertToAsset_time: the time field is dereferenced without a has_value
guard; an Absolute time generates one set-time statement, a Relative time
generates the three statements now, offset, set.  The enum switch is
exhaustive (the C++ default arm is unreachable). -/
def convertToAsset_time (p : Profile) : Except GenError String := do
  let t ← derefOpt p.time
  let body :=
    match t.type with
    | .Absolute =>
      "  openspace.time.setTime(\"" ++ t.value ++ "\")\n"
    | .Relative =>
      "  local now = openspace.time.currentWallTime();\n"
        ++ ("  local prev = openspace.time.advancedTime(now, \""
            ++ t.value ++ "\");\n")
        ++ "  openspace.time.setTime(prev);\n"
  pure ("asset.onInitialize(function()\n" ++ body ++ "end)\n")

/-- The navigation state call rendered for a CameraNavState (every optional
attribute is guarded by a has_value check in this generator). -/
def cameraNavStateOutput (c : Profile.CameraNavState) : String :=
  "  openspace.navigation.setNavigationState(\x7b"
    ++ ("Anchor = [[" ++ c.anchor ++ "]], ")
    ++ (match c.aim with
        | some a => "Aim = [[" ++ a ++ "]], "
        | none => "")
    ++ (if c.referenceFrame.isEmpty then ""
        else "ReferenceFrame = [[" ++ c.referenceFrame ++ "]], ")
    ++ ("Position = \x7b " ++ toString c.position.x ++ ", "
        ++ toString c.position.y ++ ", " ++ toString c.position.z ++ " \x7d, ")
    ++ (match c.up with
        | some u => "Up = \x7b " ++ toString u.x ++ ", " ++ toString u.y
            ++ ", " ++ toString u.z ++ " \x7d, "
        | none => "")
    ++ (match c.yaw with
        | some y => "Yaw = " ++ toString y ++ ", "
        | none => "")
    ++ (match c.pitch with
        | some pt => "Pitch = " ++ toString pt ++ " "
        | none => "")
    ++ "\x7d)\n"

/-- The goToGeo call rendered for a CameraGoToGeo: positional, with three or
four arguments depending on the altitude. -/
def cameraGoToGeoOutput (c : Profile.CameraGoToGeo) : String :=
  match c.altitude with
  | some alt =>
    "  openspace.globebrowsing.goToGeo([[" ++ c.anchor ++ "]], "
      ++ toString c.latitude ++ ", " ++ toString c.longitude ++ ", "
      ++ toString alt ++ ");\n"
  | none =>
    "  openspace.globebrowsing.goToGeo([[" ++ c.anchor ++ "]], "
      ++ toString c.latitude ++ ", " ++ toString c.longitude ++ ");\n"

/-- convertToAsset_camera: variant dispatch guarded by a has_value check on
the camera field; total, unlike the time generator. -/
def convertToAsset_camera (p : Profile) : String :=
  "asset.onInitialize(function()\n"
    ++ (match p.camera with
        | some (.navState c) => cameraNavStateOutput c
        | some (.goToGeo c) => cameraGoToGeoOutput c
        | none => "")
    ++ "end)\n"

/-! ## Basic lemmas about the Except plumbing -/

theorem ok_bind {ε α β : Type} (a : α) (f : α → Except ε β) :
    ((Except.ok a : Except ε α) >>= f) = f a := rfl

theorem error_bind {ε α β : Type} (e : ε) (f : α → Except ε β) :
    ((Except.error e : Except ε α) >>= f) = Except.error e := rfl

theorem bind_eq_ok {ε α β : Type} {x : Except ε α} {f : α → Except ε β}
    {b : β} (h : (x >>= f) = .ok b) : ∃ a, x = .ok a ∧ f a = .ok b := by
  cases x with
  | ok a => exact ⟨a, rfl, h⟩
  | error e => simp [error_bind] at h

/-! ## Claim C5: removeAsset -/

/-- Claim C5: with ignoreUpdates false, removeAsset erases the first
matching entry when the path is present, so the asset count decreases by
exactly one; when the path is absent it fails with the not-found error (the
operation throws before any mutation, leaving the profile unchanged); with
ignoreUpdates true it is a no-op that never fails. -/
theorem removeAsset_contract (p : Profile) (path : String) :
    (p.ignoreUpdates = false → path ∈ p.assets →
      p.removeAsset path = .ok { p with assets := p.assets.erase path } ∧
      (p.assets.erase path).length + 1 = p.assets.length) ∧
    (p.ignoreUpdates = false → path ∉ p.assets →
      p.removeAsset path
        = .error ("Tried to remove non-existing asset " ++ path)) ∧
    (p.ignoreUpdates = true → p.removeAsset path = .ok p) := by
  refine ⟨?_, ?_, ?_⟩
  · intro hig hmem
    have hc : p.assets.contains path = true := by
      simpa [List.contains] using hmem
    constructor
    · rw [Profile.removeAsset, hig, if_neg (by simp), if_pos hc]
    · have hlen := List.length_erase_of_mem hmem
      have hpos : 0 < p.assets.length := List.length_pos_of_mem hmem
      omega
  · intro hig hmem
    have hc : p.assets.contains path = false := by
      simpa [List.contains] using hmem
    rw [Profile.removeAsset, hig, if_neg (by simp),
      if_neg (ne_true_of_eq_false hc)]
  · intro hig
    rw [Profile.removeAsset, if_pos hig]

/-- Witness for C5 at concrete inputs. -/
theorem removeAsset_contract_witness :
    (Profile.removeAsset { assets := ["a", "b"] } "a"
      = .ok { assets := ["b"] } ∧
     ((["a", "b"] : List String).erase "a").length + 1 = 2) ∧
    (Profile.removeAsset { assets := ["b"] } "a"
      = .error ("Tried to remove non-existing asset " ++ "a")) ∧
    (Profile.removeAsset { assets := ["a"], ignoreUpdates := true } "a"
      = .ok { assets := ["a"], ignoreUpdates := true }) := by
  refine ⟨?_, ?_, ?_⟩
  · exact (removeAsset_contract { assets := ["a", "b"] } "a").1 rfl (by decide)
  · exact (removeAsset_contract { assets := ["b"] } "a").2.1 rfl (by decide)
  · exact (removeAsset_contract { assets := ["a"], ignoreUpdates := true }
      "a").2.2 rfl

/-! ## Claim C6: addAsset -/

/-- A profile whose assets already hold a duplicated entry, which addAsset
never removes. -/
def c6profile : Profile := { assets := ["a", "a"] }

/-- Counterexample to claim C6 as stated: on a profile whose assets already
contain "a" twice (violating the documented uniqueness invariant), calling
addAsset "a" twice is a no-op both times and leaves two "a" entries, not
exactly one. -/
theorem addAsset_counterexample :
    ((c6profile.addAsset "a").addAsset "a").assets.count "a" ≠ 1 := by decide

/-- Claim C6 amended: provided "a" occurs at most once beforehand (the
documented uniqueness invariant of the assets list), two addAsset "a" calls
with ignoreUpdates false leave exactly one "a" entry; addAsset appends at
the end when the path is absent, is a no-op when the path is present or
ignoreUpdates is true, and never introduces a duplicate (it preserves
Nodup). -/
theorem addAsset_idempotence (p : Profile) (path : String) :
    (p.ignoreUpdates = false → p.assets.count path ≤ 1 →
      ((p.addAsset path).addAsset path).assets.count path = 1) ∧
    (p.ignoreUpdates = false → path ∉ p.assets →
      (p.addAsset path).assets = p.assets ++ [path]) ∧
    (path ∈ p.assets ∨ p.ignoreUpdates = true → p.addAsset path = p) ∧
    (p.assets.Nodup → (p.addAsset path).assets.Nodup) := by
  have happ : p.ignoreUpdates = false → path ∉ p.assets →
      (p.addAsset path).assets = p.assets ++ [path] := by
    intro hig hmem
    have hc : p.assets.contains path = false := by
      simpa [List.contains] using hmem
    rw [Profile.addAsset, hig, if_neg (by simp),
      if_neg (ne_true_of_eq_false hc)]
  have hnoop : path ∈ p.assets ∨ p.ignoreUpdates = true →
      p.addAsset path = p := by
    intro h
    rcases h with hmem | hig
    · have hc : p.assets.contains path = true := by
        simpa [List.contains] using hmem
      rw [Profile.addAsset]
      cases hig : p.ignoreUpdates with
      | true => rw [if_pos rfl]
      | false => rw [if_neg (by simp), if_pos hc]
    · rw [Profile.addAsset, if_pos hig]
  refine ⟨?_, happ, hnoop, ?_⟩
  · intro hig hcnt
    by_cases hmem : path ∈ p.assets
    · have h1 : p.addAsset path = p := hnoop (Or.inl hmem)
      rw [h1, h1]
      have := List.count_pos_iff.mpr hmem
      omega
    · have h1 := happ hig hmem
      have hmem2 : path ∈ (p.addAsset path).assets := by
        rw [h1]; simp
      have h2 : (p.addAsset path).addAsset path = p.addAsset path := by
        have hc : (p.addAsset path).assets.contains path = true := by
          simpa [List.contains] using hmem2
        rw [Profile.addAsset]
        cases hig2 : (p.addAsset path).ignoreUpdates with
        | true => rw [if_pos rfl]
        | false => rw [if_neg (by simp), if_pos hc]
      rw [h2, h1, List.count_append]
      have : p.assets.count path = 0 := List.count_eq_zero.mpr hmem
      simp [this]
  · intro hnd
    by_cases hig : p.ignoreUpdates = true
    · rw [hnoop (Or.inr hig)]; exact hnd
    · by_cases hmem : path ∈ p.assets
      · rw [hnoop (Or.inl hmem)]; exact hnd
      · rw [happ (by simpa using hig) hmem]
        simp [List.nodup_append, hnd, hmem]

/-- Witness for C6 amended at concrete inputs. -/
theorem addAsset_idempotence_witness :
    (((Profile.addAsset (Profile.addAsset { assets := ["b"] } "a") "a")).assets.count "a" = 1) ∧
    ((Profile.addAsset { assets := ["b"] } "a").assets = ["b"] ++ ["a"]) ∧
    (Profile.addAsset { assets := ["a"] } "a" = { assets := ["a"] }) ∧
    ((Profile.addAsset { assets := ["b"] } "a").assets.Nodup) := by
  refine ⟨?_, ?_, ?_, ?_⟩
  · exact (addAsset_idempotence { assets := ["b"] } "a").1 rfl (by decide)
  · exact (addAsset_idempotence { assets := ["b"] } "a").2.1 rfl (by decide)
  · exact (addAsset_idempotence { assets := ["a"] } "a").2.2.1 (Or.inl (by decide))
  · exact (addAsset_idempotence { assets := ["b"] } "a").2.2.2 (by decide)

/-! ## Claim C8: time fragment fidelity -/

/-- Claim C8: the time type fully determines the generated fragment, with no
third case.  A Relative time produces the initialization header, exactly the
three statements now, offset, set in that fixed order, and the footer; an
Absolute time produces the header, exactly the one set-time statement, and
the footer. -/
theorem time_fragment_fidelity (p : Profile) (v : String) :
    (p.time = some ⟨.Relative, v⟩ →
      convertToAsset_time p = .ok ("asset.onInitialize(function()\n"
        ++ ("  local now = openspace.time.currentWallTime();\n"
          ++ ("  local prev = openspace.time.advancedTime(now, \""
              ++ v ++ "\");\n")
          ++ "  openspace.time.setTime(prev);\n")
        ++ "end)\n")) ∧
    (p.time = some ⟨.Absolute, v⟩ →
      convertToAsset_time p = .ok ("asset.onInitialize(function()\n"
        ++ ("  openspace.time.setTime(\"" ++ v ++ "\")\n")
        ++ "end)\n")) := by
  constructor
  · intro h
    rw [convertToAsset_time, h]
    rfl
  · intro h
    rw [convertToAsset_time, h]
    rfl

/-- Witness for C8 at concrete inputs. -/
theorem time_fragment_fidelity_witness :
    (convertToAsset_time { time := some ⟨.Relative, "-1h"⟩ }
      = .ok ("asset.onInitialize(function()\n"
        ++ ("  local now = openspace.time.currentWallTime();\n"
          ++ ("  local prev = openspace.time.advancedTime(now, \""
              ++ "-1h" ++ "\");\n")
          ++ "  openspace.time.setTime(prev);\n")
        ++ "end)\n")) ∧
    (convertToAsset_time { time := some ⟨.Absolute, "2021-01-01T00:00:00"⟩ }
      = .ok ("asset.onInitialize(function()\n"
        ++ ("  openspace.time.setTime(\"" ++ "2021-01-01T00:00:00" ++ "\")\n")
        ++ "end)\n")) :=
  ⟨(time_fragment_fidelity { time := some ⟨.Relative, "-1h"⟩ } "-1h").1 rfl,
   (time_fragment_fidelity { time := some ⟨.Absolute, "2021-01-01T00:00:00"⟩ }
     "2021-01-01T00:00:00").2 rfl⟩

/-! ## Claim C9: modules generation constraint -/

/-- Any module with a missing instruction branch aborts the whole modules
fragment with the empty-optional failure, regardless of its position in the
list. -/
theorem modulesOutput_error (ms : List Profile.Module) (m : Profile.Module)
    (hm : m ∈ ms)
    (hmiss : m.loadedInstruction = none ∨ m.notLoadedInstruction = none) :
    modulesOutput ms = .error .emptyOptional := by
  induction ms with
  | nil => cases hm
  | cons m0 rest ih =>
    rcases List.mem_cons.mp hm with heq | htail
    · subst heq
      rcases hmiss with h | h
      · rw [modulesOutput, h]
        rfl
      · rw [modulesOutput, h]
        cases m.loadedInstruction <;> rfl
    · rw [modulesOutput]
      cases h0 : m0.loadedInstruction with
      | none => rfl
      | some li =>
        cases h1 : m0.notLoadedInstruction with
        | none => rfl
        | some nli =>
          rw [ih htail]
          rfl

/-- Claim C9: generating the modules fragment for a profile containing a
module whose loadedInstruction or notLoadedInstruction is absent fails (the
template dereferences both branches unconditionally, so both are required
at generation time even though the schema marks them optional). -/
theorem modules_generation_constraint (p : Profile) (m : Profile.Module)
    (hm : m ∈ p.modules)
    (hmiss : m.loadedInstruction = none ∨ m.notLoadedInstruction = none) :
    convertToAsset_modules p = .error .emptyOptional :=
  modulesOutput_error p.modules m hm hmiss

/-- Witness for C9 at a concrete input. -/
theorem modules_generation_constraint_witness :
    convertToAsset_modules
      { modules := [⟨"globebrowsing", some "x()", none⟩] }
      = .error .emptyOptional :=
  modules_generation_constraint
    { modules := [⟨"globebrowsing", some "x()", none⟩] }
    ⟨"globebrowsing", some "x()", none⟩ (by decide) (Or.inr rfl)

/-! ## Claim C10: the time generator on an absent time field -/

/-- Claim C10 (refuting theorem): the claim states that generating the time
fragment succeeds for every Profile, the generator never dereferencing an
absent optional.  The code dereferences p.time without a has_value guard
(unlike the camera generator and unlike serialize, both of which guard), so
for every profile whose optional time field is absent the generation fails
on the empty-optional dereference instead of succeeding. -/
theorem time_generator_deref_absent (p : Profile) (h : p.time = none) :
    convertToAsset_time p = .error .emptyOptional := by
  rw [convertToAsset_time, h]
  rfl

/-- Witness for the C10 refutation: the default-constructed profile has no
time field and its time fragment generation fails. -/
theorem time_generator_deref_absent_witness :
    convertToAsset_time {} = .error .emptyOptional :=
  time_generator_deref_absent {} rfl

/-! ## Claim C4: capture determinism -/

/-- A changed direct property of a node appears in its depth-first
collection (in the trailing, local segment). -/
theorem mem_changedProperties_of_changed (o : properties.PropertyOwner)
    (pr : properties.Property) (h : pr ∈ o.properties)
    (hc : pr.hasChanged = true) : pr ∈ changedProperties o := by
  cases o with
  | mk subs props =>
    rw [changedProperties]
    refine List.mem_append_right _ ?_
    exact List.mem_filter.mpr ⟨h, by simp [hc]⟩

/-- Membership in the collection of one sub-owner lifts to the concatenated
collection of a list of sub-owners. -/
theorem mem_changedPropertiesList (os : List properties.PropertyOwner)
    (o : properties.PropertyOwner) (ho : o ∈ os)
    (pr : properties.Property) (h : pr ∈ changedProperties o) :
    pr ∈ changedPropertiesList os := by
  induction os with
  | nil => cases ho
  | cons o0 rest ih =>
    rw [changedPropertiesList]
    rcases List.mem_cons.mp ho with heq | htail
    · exact List.mem_append_left _ (heq ▸ h)
    · exact List.mem_append_right _ (ih htail)

/-- An element of the left part of an append sits at a strictly earlier
index than any element of the right part. -/
theorem append_indexes_before {α : Type} (xs ys : List α) (a b : α)
    (ha : a ∈ xs) (hb : b ∈ ys) :
    ∃ i j : Nat, i < j ∧ (xs ++ ys)[i]? = some a ∧ (xs ++ ys)[j]? = some b := by
  obtain ⟨i, hi, hia⟩ := List.getElem_of_mem ha
  obtain ⟨j, hj, hjb⟩ := List.getElem_of_mem hb
  refine ⟨i, xs.length + j, by omega, ?_, ?_⟩
  · rw [List.getElem?_append, if_pos hi, List.getElem?_eq_getElem hi]
    exact congrArg some hia
  · rw [List.getElem?_append, if_neg (by omega)]
    have hsub : xs.length + j - xs.length = j := by omega
    rw [hsub, List.getElem?_eq_getElem hj]
    exact congrArg some hjb

/-- Claim C4: capture appends exactly one SetValueSingle entry per changed
property, carrying the fully qualified identifier as name and the textual
value, in the deterministic depth-first order; in particular a changed
property P1 inside a child sub-owner is emitted strictly before a changed
property P2 sitting directly on the root. -/
theorem capture_determinism (p : Profile)
    (root sub : properties.PropertyOwner)
    (P1 P2 : properties.Property) (currentTime : String)
    (navState : NavigationState) (deltaTimeSteps : List JNumber)
    (hsub : sub ∈ root.propertySubOwners)
    (h1 : P1 ∈ sub.properties) (hc1 : P1.hasChanged = true)
    (h2 : P2 ∈ root.properties) (hc2 : P2.hasChanged = true) :
    (p.saveCurrentSettingsToProfile root currentTime navState
        deltaTimeSteps).properties
      = p.properties ++ (changedProperties root).map capturedProperty ∧
    ∃ i j : Nat, i < j ∧
      (p.saveCurrentSettingsToProfile root currentTime navState
          deltaTimeSteps).properties[i]? = some (capturedProperty P1) ∧
      (p.saveCurrentSettingsToProfile root currentTime navState
          deltaTimeSteps).properties[j]? = some (capturedProperty P2) := by
  refine ⟨rfl, ?_⟩
  cases root with
  | mk subs props =>
    have hP1 : capturedProperty P1
        ∈ (changedPropertiesList subs).map capturedProperty := by
      refine List.mem_map_of_mem _ ?_
      exact mem_changedPropertiesList subs sub hsub P1
        (mem_changedProperties_of_changed sub P1 h1 hc1)
    have hP2 : capturedProperty P2
        ∈ (props.filter fun q => q.hasChanged).map capturedProperty := by
      refine List.mem_map_of_mem _ ?_
      exact List.mem_filter.mpr ⟨h2, by simp [hc2]⟩
    have hshape : (p.saveCurrentSettingsToProfile (.mk subs props)
        currentTime navState deltaTimeSteps).properties
        = (p.properties ++ (changedPropertiesList subs).map capturedProperty)
          ++ (props.filter fun q => q.hasChanged).map capturedProperty := by
      show p.properties ++ (changedProperties (.mk subs props)).map
          capturedProperty = _
      rw [changedProperties, List.map_append, List.append_assoc]
    rw [hshape]
    exact append_indexes_before _ _ _ _
      (List.mem_append_right _ hP1) hP2

/-- Witness for C4 at a concrete two-level graph. -/
theorem capture_determinism_witness :
    (Profile.saveCurrentSettingsToProfile {}
        (.mk [.mk [] [⟨"Scene.Child.P1", true, "1"⟩]]
             [⟨"Root.P2", true, "2"⟩])
        "2021" ⟨"Earth", none, "Root", ⟨0, 0, 0⟩, none, none, none⟩
        []).properties
      = [] ++ (changedProperties
          (.mk [.mk [] [⟨"Scene.Child.P1", true, "1"⟩]]
               [⟨"Root.P2", true, "2"⟩])).map capturedProperty ∧
    ∃ i j : Nat, i < j ∧
      (Profile.saveCurrentSettingsToProfile {}
          (.mk [.mk [] [⟨"Scene.Child.P1", true, "1"⟩]]
               [⟨"Root.P2", true, "2"⟩])
          "2021" ⟨"Earth", none, "Root", ⟨0, 0, 0⟩, none, none, none⟩
          []).properties[i]?
        = some (capturedProperty ⟨"Scene.Child.P1", true, "1"⟩) ∧
      (Profile.saveCurrentSettingsToProfile {}
          (.mk [.mk [] [⟨"Scene.Child.P1", true, "1"⟩]]
               [⟨"Root.P2", true, "2"⟩])
          "2021" ⟨"Earth", none, "Root", ⟨0, 0, 0⟩, none, none, none⟩
          []).properties[j]?
        = some (capturedProperty ⟨"Root.P2", true, "2"⟩) :=
  capture_determinism {} _ (.mk [] [⟨"Scene.Child.P1", true, "1"⟩]) _ _
    "2021" ⟨"Earth", none, "Root", ⟨0, 0, 0⟩, none, none, none⟩ []
    (List.Mem.head _) (List.Mem.head _) rfl (List.Mem.head _) rfl

/-! ## Lookup lemmas for serialized objects -/

theorem lookupKey_optPair_append_ne {k0 k : String} (v : Option Json)
    (rest : List (String × Json)) (h : k0 ≠ k) :
    lookupKey (optPair k0 v ++ rest) k = lookupKey rest k := by
  cases v <;> simp [optPair, lookupKey, h]

theorem lookupKey_optPair_self {k : String} (v : Option Json)
    (rest : List (String × Json)) (hrest : lookupKey rest k = none) :
    lookupKey (optPair k v ++ rest) k = v := by
  cases v <;> simp [optPair, lookupKey, hrest]

theorem lookupKey_optPair_single_ne {k0 k : String} (v : Option Json)
    (h : k0 ≠ k) : lookupKey (optPair k0 v) k = none := by
  cases v <;> simp [optPair, lookupKey, h]

theorem lookupKey_setPairs_self (l : List (String × Json)) (k : String)
    (v : Json) : lookupKey (setPairs l k v) k = some v := by
  induction l with
  | nil => simp [setPairs, lookupKey]
  | cons hd tl ih =>
    obtain ⟨k0, v0⟩ := hd
    by_cases hk : k0 = k
    · simp [setPairs, hk, lookupKey]
    · simp [setPairs, hk, lookupKey, ih]

theorem lookupKey_setPairs_ne (l : List (String × Json)) (k : String)
    (v : Json) (k0 : String) (h : k ≠ k0) :
    lookupKey (setPairs l k v) k0 = lookupKey l k0 := by
  induction l with
  | nil => simp [setPairs, lookupKey, h]
  | cons hd tl ih =>
    obtain ⟨k1, v1⟩ := hd
    by_cases hk : k1 = k
    · subst hk
      simp [setPairs, lookupKey, h]
    · simp [setPairs, hk, lookupKey, ih]

/-! ## Round trips of the individual to_json / from_json pairs -/

theorem rt_version (v : Profile.Version) :
    fromJsonVersion (toJsonVersion v) = .ok v := rfl

theorem rt_module (m : Profile.Module) :
    fromJsonModule (toJsonModule m) = .ok m := by
  obtain ⟨n, li, nli⟩ := m
  cases li <;> cases nli <;> rfl

theorem rt_meta (m : Profile.Meta) : fromJsonMeta (toJsonMeta m) = .ok m := by
  obtain ⟨a, b, c, d, e, f⟩ := m
  cases a <;> cases b <;> cases c <;> cases d <;> cases e <;> cases f <;> rfl

theorem rt_property (v : Profile.Property) :
    fromJsonProperty (toJsonProperty v) = .ok v := by
  obtain ⟨st, n, val⟩ := v
  cases st <;> rfl

theorem rt_action (v : Profile.Action) :
    fromJsonAction (toJsonAction v) = .ok v := rfl

theorem rt_keybinding (v : Profile.Keybinding) :
    fromJsonKeybinding (toJsonKeybinding v) = .ok v := by
  obtain ⟨⟨kt⟩, a⟩ := v
  rfl

theorem rt_time (v : Profile.Time) : fromJsonTime (toJsonTime v) = .ok v := by
  obtain ⟨ty, val⟩ := v
  cases ty <;> rfl

theorem rt_cameraValue (c : Profile.Camera) :
    decodeCameraValue (toJsonCamera c) = .ok c := by
  cases c with
  | navState cn =>
    obtain ⟨a, aim, rf, pos, up, yaw, pitch⟩ := cn
    obtain ⟨px, py, pz⟩ := pos
    cases aim <;> cases up <;> cases yaw <;> cases pitch <;> rfl
  | goToGeo cg =>
    obtain ⟨a, la, lo, alt⟩ := cg
    cases alt <;> rfl

theorem rt_str (s : String) : Json.getStr (Json.str s) = .ok s := rfl

theorem rt_num (n : JNumber) : Json.getNum (Json.num n) = .ok n := rfl

theorem rt_keybinding10 (v : version10.Keybinding) :
    version10.fromJsonKeybinding
      (.obj [("key", .str (keyToString v.key)),
             ("documentation", .str v.documentation),
             ("name", .str v.name),
             ("gui_path", .str v.guiPath),
             ("is_local", .bool v.isLocal),
             ("script", .str v.script)]) = .ok v := by
  obtain ⟨⟨kt⟩, d, n, g, il, s⟩ := v
  rfl

/-! ## Element-wise round trip of serialized arrays -/

theorem mapExcept_roundtrip {α : Type} {f : Json → Except ParsingError α}
    {g : α → Json} (hrt : ∀ a, f (g a) = .ok a) (l : List α) :
    mapExcept f (l.map g) = .ok l := by
  induction l with
  | nil => rfl
  | cons a as ih =>
    rw [List.map_cons, mapExcept, hrt a, ok_bind, ih, ok_bind]
    rfl

theorem sectionList_serialized {α : Type} (doc : Json) (key : String)
    {f : Json → Except ParsingError α} {g : α → Json} (l : List α)
    (hl : doc.getKey? key = nonemptyArr (l.map g))
    (hrt : ∀ a, f (g a) = .ok a) :
    sectionList doc key f = .ok l := by
  cases l with
  | nil =>
    have hnone : doc.getKey? key = none := by rw [hl]; rfl
    simp only [sectionList, hnone]
  | cons a as =>
    have hsome : doc.getKey? key = some (.arr ((a :: as).map g)) := by
      rw [hl]; rfl
    simp only [sectionList, hsome]
    exact mapExcept_roundtrip hrt (a :: as)

theorem sectionOpt_serialized {α : Type} (doc : Json) (key : String)
    {f : Json → Except ParsingError α} {g : α → Json} (o : Option α)
    (hl : doc.getKey? key = o.map g)
    (hrt : ∀ a, f (g a) = .ok a) :
    sectionOpt doc key f = .ok o := by
  cases o with
  | none =>
    simp only [Option.map_none'] at hl
    simp only [sectionOpt, hl]
  | some a =>
    simp only [Option.map_some'] at hl
    simp only [sectionOpt, hl, hrt a]

theorem decodeCamera_serialized (doc : Json) (o : Option Profile.Camera)
    (hl : doc.getKey? "camera" = o.map toJsonCamera) :
    decodeCamera doc = .ok o := by
  cases o with
  | none =>
    simp only [Option.map_none'] at hl
    simp only [decodeCamera, hl]
  | some c =>
    simp only [Option.map_some'] at hl
    simp only [decodeCamera, hl, rt_cameraValue c]

/-! ## Key lookups on a serialized profile document -/

theorem lookupKey_optPair_single {k : String} (v : Option Json) :
    lookupKey (optPair k v) k = v := by
  cases v <;> simp [optPair, lookupKey]

theorem serial_lookup_version (p : Profile) :
    (Profile.serializeJson p).getKey? "version"
      = some (toJsonVersion p.version) := by
  simp only [Profile.serializeJson, Json.getKey?]
  rw [lookupKey_optPair_self]
  rw [lookupKey_optPair_append_ne _ _ (by decide),
    lookupKey_optPair_append_ne _ _ (by decide),
    lookupKey_optPair_append_ne _ _ (by decide),
    lookupKey_optPair_append_ne _ _ (by decide),
    lookupKey_optPair_append_ne _ _ (by decide),
    lookupKey_optPair_append_ne _ _ (by decide),
    lookupKey_optPair_append_ne _ _ (by decide),
    lookupKey_optPair_append_ne _ _ (by decide),
    lookupKey_optPair_append_ne _ _ (by decide),
    lookupKey_optPair_append_ne _ _ (by decide),
    lookupKey_optPair_single_ne _ (by decide)]

theorem serial_lookup_modules (p : Profile) :
    (Profile.serializeJson p).getKey? "modules"
      = nonemptyArr (p.modules.map toJsonModule) := by
  simp only [Profile.serializeJson, Json.getKey?]
  rw [lookupKey_optPair_append_ne _ _ (by decide),
    lookupKey_optPair_self]
  rw [lookupKey_optPair_append_ne _ _ (by decide),
    lookupKey_optPair_append_ne _ _ (by decide),
    lookupKey_optPair_append_ne _ _ (by decide),
    lookupKey_optPair_append_ne _ _ (by decide),
    lookupKey_optPair_append_ne _ _ (by decide),
    lookupKey_optPair_append_ne _ _ (by decide),
    lookupKey_optPair_append_ne _ _ (by decide),
    lookupKey_optPair_append_ne _ _ (by decide),
    lookupKey_optPair_append_ne _ _ (by decide),
    lookupKey_optPair_single_ne _ (by decide)]

theorem serial_lookup_meta (p : Profile) :
    (Profile.serializeJson p).getKey? "meta"
      = p.meta.map toJsonMeta := by
  simp only [Profile.serializeJson, Json.getKey?]
  rw [lookupKey_optPair_append_ne _ _ (by decide),
    lookupKey_optPair_append_ne _ _ (by decide),
    lookupKey_optPair_self]
  rw [lookupKey_optPair_append_ne _ _ (by decide),
    lookupKey_optPair_append_ne _ _ (by decide),
    lookupKey_optPair_append_ne _ _ (by decide),
    lookupKey_optPair_append_ne _ _ (by decide),
    lookupKey_optPair_append_ne _ _ (by decide),
    lookupKey_optPair_append_ne _ _ (by decide),
    lookupKey_optPair_append_ne _ _ (by decide),
    lookupKey_optPair_append_ne _ _ (by decide),
    lookupKey_optPair_single_ne _ (by decide)]

theorem serial_lookup_assets (p : Profile) :
    (Profile.serializeJson p).getKey? "assets"
      = nonemptyArr (p.assets.map Json.str) := by
  simp only [Profile.serializeJson, Json.getKey?]
  rw [lookupKey_optPair_append_ne _ _ (by decide),
    lookupKey_optPair_append_ne _ _ (by decide),
    lookupKey_optPair_append_ne _ _ (by decide),
    lookupKey_optPair_self]
  rw [lookupKey_optPair_append_ne _ _ (by decide),
    lookupKey_optPair_append_ne _ _ (by decide),
    lookupKey_optPair_append_ne _ _ (by decide),
    lookupKey_optPair_append_ne _ _ (by decide),
    lookupKey_optPair_append_ne _ _ (by decide),
    lookupKey_optPair_append_ne _ _ (by decide),
    lookupKey_optPair_append_ne _ _ (by decide),
    lookupKey_optPair_single_ne _ (by decide)]

theorem serial_lookup_properties (p : Profile) :
    (Profile.serializeJson p).getKey? "properties"
      = nonemptyArr (p.properties.map toJsonProperty) := by
  simp only [Profile.serializeJson, Json.getKey?]
  rw [lookupKey_optPair_append_ne _ _ (by decide),
    lookupKey_optPair_append_ne _ _ (by decide),
    lookupKey_optPair_append_ne _ _ (by decide),
    lookupKey_optPair_append_ne _ _ (by decide),
    lookupKey_optPair_self]
  rw [lookupKey_optPair_append_ne _ _ (by decide),
    lookupKey_optPair_append_ne _ _ (by decide),
    lookupKey_optPair_append_ne _ _ (by decide),
    lookupKey_optPair_append_ne _ _ (by decide),
    lookupKey_optPair_append_ne _ _ (by decide),
    lookupKey_optPair_append_ne _ _ (by decide),
    lookupKey_optPair_single_ne _ (by decide)]

theorem serial_lookup_actions (p : Profile) :
    (Profile.serializeJson p).getKey? "actions"
      = nonemptyArr (p.actions.map toJsonAction) := by
  simp only [Profile.serializeJson, Json.getKey?]
  rw [lookupKey_optPair_append_ne _ _ (by decide),
    lookupKey_optPair_append_ne _ _ (by decide),
    lookupKey_optPair_append_ne _ _ (by decide),
    lookupKey_optPair_append_ne _ _ (by decide),
    lookupKey_optPair_append_ne _ _ (by decide),
    lookupKey_optPair_self]
  rw [lookupKey_optPair_append_ne _ _ (by decide),
    lookupKey_optPair_append_ne _ _ (by decide),
    lookupKey_optPair_append_ne _ _ (by decide),
    lookupKey_optPair_append_ne _ _ (by decide),
    lookupKey_optPair_append_ne _ _ (by decide),
    lookupKey_optPair_single_ne _ (by decide)]

theorem serial_lookup_keybindings (p : Profile) :
    (Profile.serializeJson p).getKey? "keybindings"
      = nonemptyArr (p.keybindings.map toJsonKeybinding) := by
  simp only [Profile.serializeJson, Json.getKey?]
  rw [lookupKey_optPair_append_ne _ _ (by decide),
    lookupKey_optPair_append_ne _ _ (by decide),
    lookupKey_optPair_append_ne _ _ (by decide),
    lookupKey_optPair_append_ne _ _ (by decide),
    lookupKey_optPair_append_ne _ _ (by decide),
    lookupKey_optPair_append_ne _ _ (by decide),
    lookupKey_optPair_self]
  rw [lookupKey_optPair_append_ne _ _ (by decide),
    lookupKey_optPair_append_ne _ _ (by decide),
    lookupKey_optPair_append_ne _ _ (by decide),
    lookupKey_optPair_append_ne _ _ (by decide),
    lookupKey_optPair_single_ne _ (by decide)]

theorem serial_lookup_time (p : Profile) :
    (Profile.serializeJson p).getKey? "time"
      = p.time.map toJsonTime := by
  simp only [Profile.serializeJson, Json.getKey?]
  rw [lookupKey_optPair_append_ne _ _ (by decide),
    lookupKey_optPair_append_ne _ _ (by decide),
    lookupKey_optPair_append_ne _ _ (by decide),
    lookupKey_optPair_append_ne _ _ (by decide),
    lookupKey_optPair_append_ne _ _ (by decide),
    lookupKey_optPair_append_ne _ _ (by decide),
    lookupKey_optPair_append_ne _ _ (by decide),
    lookupKey_optPair_self]
  rw [lookupKey_optPair_append_ne _ _ (by decide),
    lookupKey_optPair_append_ne _ _ (by decide),
    lookupKey_optPair_append_ne _ _ (by decide),
    lookupKey_optPair_single_ne _ (by decide)]

theorem serial_lookup_deltaTimes (p : Profile) :
    (Profile.serializeJson p).getKey? "delta_times"
      = nonemptyArr (p.deltaTimes.map Json.num) := by
  simp only [Profile.serializeJson, Json.getKey?]
  rw [lookupKey_optPair_append_ne _ _ (by decide),
    lookupKey_optPair_append_ne _ _ (by decide),
    lookupKey_optPair_append_ne _ _ (by decide),
    lookupKey_optPair_append_ne _ _ (by decide),
    lookupKey_optPair_append_ne _ _ (by decide),
    lookupKey_optPair_append_ne _ _ (by decide),
    lookupKey_optPair_append_ne _ _ (by decide),
    lookupKey_optPair_append_ne _ _ (by decide),
    lookupKey_optPair_self]
  rw [lookupKey_optPair_append_ne _ _ (by decide),
    lookupKey_optPair_append_ne _ _ (by decide),
    lookupKey_optPair_single_ne _ (by decide)]

theorem serial_lookup_camera (p : Profile) :
    (Profile.serializeJson p).getKey? "camera"
      = p.camera.map toJsonCamera := by
  simp only [Profile.serializeJson, Json.getKey?]
  rw [lookupKey_optPair_append_ne _ _ (by decide),
    lookupKey_optPair_append_ne _ _ (by decide),
    lookupKey_optPair_append_ne _ _ (by decide),
    lookupKey_optPair_append_ne _ _ (by decide),
    lookupKey_optPair_append_ne _ _ (by decide),
    lookupKey_optPair_append_ne _ _ (by decide),
    lookupKey_optPair_append_ne _ _ (by decide),
    lookupKey_optPair_append_ne _ _ (by decide),
    lookupKey_optPair_append_ne _ _ (by decide),
    lookupKey_optPair_self]
  rw [lookupKey_optPair_append_ne _ _ (by decide),
    lookupKey_optPair_single_ne _ (by decide)]

theorem serial_lookup_markNodes (p : Profile) :
    (Profile.serializeJson p).getKey? "mark_nodes"
      = nonemptyArr (p.markNodes.map Json.str) := by
  simp only [Profile.serializeJson, Json.getKey?]
  rw [lookupKey_optPair_append_ne _ _ (by decide),
    lookupKey_optPair_append_ne _ _ (by decide),
    lookupKey_optPair_append_ne _ _ (by decide),
    lookupKey_optPair_append_ne _ _ (by decide),
    lookupKey_optPair_append_ne _ _ (by decide),
    lookupKey_optPair_append_ne _ _ (by decide),
    lookupKey_optPair_append_ne _ _ (by decide),
    lookupKey_optPair_append_ne _ _ (by decide),
    lookupKey_optPair_append_ne _ _ (by decide),
    lookupKey_optPair_append_ne _ _ (by decide),
    lookupKey_optPair_self]
  rw [lookupKey_optPair_single_ne _ (by decide)]

theorem serial_lookup_additionalScripts (p : Profile) :
    (Profile.serializeJson p).getKey? "additional_scripts"
      = nonemptyArr (p.additionalScripts.map Json.str) := by
  simp only [Profile.serializeJson, Json.getKey?]
  rw [lookupKey_optPair_append_ne _ _ (by decide),
    lookupKey_optPair_append_ne _ _ (by decide),
    lookupKey_optPair_append_ne _ _ (by decide),
    lookupKey_optPair_append_ne _ _ (by decide),
    lookupKey_optPair_append_ne _ _ (by decide),
    lookupKey_optPair_append_ne _ _ (by decide),
    lookupKey_optPair_append_ne _ _ (by decide),
    lookupKey_optPair_append_ne _ _ (by decide),
    lookupKey_optPair_append_ne _ _ (by decide),
    lookupKey_optPair_append_ne _ _ (by decide),
    lookupKey_optPair_append_ne _ _ (by decide),
    lookupKey_optPair_single]

/-! ## Claim C2: serialize / decode round trip -/

theorem atKey_version_serialized (p : Profile) :
    (Profile.serializeJson p).atKey "version"
      = .ok (toJsonVersion p.version) := by
  simp only [Json.atKey, serial_lookup_version]

/-- On a serialized profile that is not at version 1.0 with a nonempty
keybindings list, the migration dispatch leaves the document untouched. -/
theorem migrate_serialized (p : Profile)
    (h : ¬(p.version.major = 1 ∧ p.version.minor = 0) ∨ p.keybindings = []) :
    migrate p.serializeJson p.version = .ok (p.serializeJson, p.version) := by
  by_cases h10 : p.version.major = 1 ∧ p.version.minor = 0
  · have hkb : p.keybindings = [] := by tauto
    have hnone : p.serializeJson.getKey? "keybindings" = none := by
      rw [serial_lookup_keybindings, hkb]; rfl
    have hconv : version10.convertVersion10to11 p.serializeJson
        = .ok p.serializeJson := by
      simp only [version10.convertVersion10to11, hnone]
    rw [migrate, if_pos h10, hconv, ok_bind, atKey_version_serialized,
      ok_bind, rt_version, ok_bind]
    rfl
  · rw [migrate, if_neg h10]

/-- A profile at schema version 1.0 carrying new-format keybindings; its
serialized form re-enters the 1.0 to 1.1 migration on decode, which rejects
the new-format keybinding objects. -/
def c2profile : Profile :=
  { version := ⟨1, 0⟩, keybindings := [⟨⟨"A"⟩, "profile.keybind.0"⟩] }

/-- Counterexample to claim C2 as stated: c2profile has only valid field
values (version 1.0 is a valid Version, the keybinding is well formed), yet
decoding its serialized form does not return the profile: it fails, because
the decoder re-runs the 1.0 to 1.1 migration, which requires the old
keybinding layout. -/
theorem serialize_roundtrip_counterexample :
    decodeProfile c2profile.serializeJson
      = .error ⟨.Error, "keybinding.documentation field is missing"⟩ := rfl

/-- Claim C2 amended: decode is a left inverse of serialize, field for field
and preserving every list order, for every profile except one at version
1.0 with a nonempty keybindings list (whose serialized form re-enters the
migration step and is rejected); the transient ignoreUpdates flag is not
serialized and always decodes as false. -/
theorem serialize_roundtrip (p : Profile)
    (h : ¬(p.version.major = 1 ∧ p.version.minor = 0) ∨ p.keybindings = []) :
    decodeProfile p.serializeJson = .ok { p with ignoreUpdates := false } := by
  have hmod : sectionList p.serializeJson "modules" fromJsonModule
      = .ok p.modules :=
    sectionList_serialized _ _ p.modules (serial_lookup_modules p) rt_module
  have hmeta : sectionOpt p.serializeJson "meta" fromJsonMeta = .ok p.meta :=
    sectionOpt_serialized _ _ p.meta (serial_lookup_meta p) rt_meta
  have hassets : sectionList p.serializeJson "assets" Json.getStr
      = .ok p.assets :=
    sectionList_serialized _ _ p.assets (serial_lookup_assets p) rt_str
  have hprops : sectionList p.serializeJson "properties" fromJsonProperty
      = .ok p.properties :=
    sectionList_serialized _ _ p.properties (serial_lookup_properties p)
      rt_property
  have hacts : sectionList p.serializeJson "actions" fromJsonAction
      = .ok p.actions :=
    sectionList_serialized _ _ p.actions (serial_lookup_actions p) rt_action
  have hkbs : sectionList p.serializeJson "keybindings" fromJsonKeybinding
      = .ok p.keybindings :=
    sectionList_serialized _ _ p.keybindings (serial_lookup_keybindings p)
      rt_keybinding
  have htime : sectionOpt p.serializeJson "time" fromJsonTime = .ok p.time :=
    sectionOpt_serialized _ _ p.time (serial_lookup_time p) rt_time
  have hdts : sectionList p.serializeJson "delta_times" Json.getNum
      = .ok p.deltaTimes :=
    sectionList_serialized _ _ p.deltaTimes (serial_lookup_deltaTimes p) rt_num
  have hcam : decodeCamera p.serializeJson = .ok p.camera :=
    decodeCamera_serialized _ p.camera (serial_lookup_camera p)
  have hmarks : sectionList p.serializeJson "mark_nodes" Json.getStr
      = .ok p.markNodes :=
    sectionList_serialized _ _ p.markNodes (serial_lookup_markNodes p) rt_str
  have haddl : sectionList p.serializeJson "additional_scripts" Json.getStr
      = .ok p.additionalScripts :=
    sectionList_serialized _ _ p.additionalScripts
      (serial_lookup_additionalScripts p) rt_str
  simp only [decodeProfile, atKey_version_serialized, ok_bind, rt_version,
    migrate_serialized p h, hmod, hmeta, hassets, hprops, hacts, hkbs,
    htime, hdts, hcam, hmarks, haddl]
  rfl

/-- A fully populated profile used as the round trip witness. -/
def c2witnessProfile : Profile :=
  { version := ⟨1, 1⟩
    modules := [⟨"globebrowsing", some "x()", none⟩]
    meta := some { name := some "n", license := some "MIT" }
    assets := ["scene/solarsystem", "base"]
    properties := [⟨.SetPropertyValue, "Scene.X.Renderable.Enabled", "true"⟩]
    actions := [⟨"a.b", "doc", "nm", "/gui", true, "openspace.f()"⟩]
    keybindings := [⟨⟨"CTRL+A"⟩, "a.b"⟩]
    time := some ⟨.Relative, "-1d"⟩
    deltaTimes := [1, 30, 3600]
    camera := some (.navState
      ⟨"Earth", some "Moon", "Root", ⟨1, 2, 3⟩, none, some 4, none⟩)
    markNodes := ["Earth", "Moon"]
    additionalScripts := ["openspace.g()"] }

/-- Witness for C2 amended at a fully populated concrete profile. -/
theorem serialize_roundtrip_witness :
    decodeProfile c2witnessProfile.serializeJson
      = .ok { c2witnessProfile with ignoreUpdates := false } :=
  serialize_roundtrip c2witnessProfile (Or.inl (by decide))

/-! ## Inversion of a successful decode -/

/-- A successful decode determines every intermediate result of the decode
pipeline: the parsed version, the migration result, and the decoded value of
every section of the (possibly migrated) document. -/
theorem decodeProfile_inv {doc : Json} {p : Profile}
    (h : decodeProfile doc = .ok p) :
    ∃ vj v0 dv,
      doc.atKey "version" = .ok vj ∧
      fromJsonVersion vj = .ok v0 ∧
      migrate doc v0 = .ok dv ∧
      sectionList dv.1 "modules" fromJsonModule = .ok p.modules ∧
      sectionOpt dv.1 "meta" fromJsonMeta = .ok p.meta ∧
      sectionList dv.1 "assets" Json.getStr = .ok p.assets ∧
      sectionList dv.1 "properties" fromJsonProperty = .ok p.properties ∧
      sectionList dv.1 "actions" fromJsonAction = .ok p.actions ∧
      sectionList dv.1 "keybindings" fromJsonKeybinding = .ok p.keybindings ∧
      sectionOpt dv.1 "time" fromJsonTime = .ok p.time ∧
      sectionList dv.1 "delta_times" Json.getNum = .ok p.deltaTimes ∧
      decodeCamera dv.1 = .ok p.camera ∧
      sectionList dv.1 "mark_nodes" Json.getStr = .ok p.markNodes ∧
      sectionList dv.1 "additional_scripts" Json.getStr
        = .ok p.additionalScripts ∧
      p.version = dv.2 ∧ p.ignoreUpdates = false := by
  rw [decodeProfile] at h
  obtain ⟨vj, h1, h⟩ := bind_eq_ok h
  obtain ⟨v0, h2, h⟩ := bind_eq_ok h
  obtain ⟨dv, h3, h⟩ := bind_eq_ok h
  obtain ⟨ms, h4, h⟩ := bind_eq_ok h
  obtain ⟨mt, h5, h⟩ := bind_eq_ok h
  obtain ⟨asx, h6, h⟩ := bind_eq_ok h
  obtain ⟨ps, h7, h⟩ := bind_eq_ok h
  obtain ⟨ac, h8, h⟩ := bind_eq_ok h
  obtain ⟨kb, h9, h⟩ := bind_eq_ok h
  obtain ⟨tm, h10, h⟩ := bind_eq_ok h
  obtain ⟨dt, h11, h⟩ := bind_eq_ok h
  obtain ⟨cam, h12, h⟩ := bind_eq_ok h
  obtain ⟨mk, h13, h⟩ := bind_eq_ok h
  obtain ⟨ad, h14, h⟩ := bind_eq_ok h
  have hp : Except.ok (ε := ParsingError)
      ({ version := dv.2, modules := ms, meta := mt, assets := asx,
         properties := ps, actions := ac, keybindings := kb, time := tm,
         deltaTimes := dt, camera := cam, markNodes := mk,
         additionalScripts := ad, ignoreUpdates := false } : Profile)
      = .ok p := h
  cases hp
  exact ⟨vj, v0, dv, h1, h2, h3, h4, h5, h6, h7, h8, h9, h10, h11, h12,
    h13, h14, rfl, rfl⟩

/-! ## Claim C3: version invariant after migration -/

theorem pure_eq_ok {ε α : Type} (a : α) :
    (pure a : Except ε α) = .ok a := rfl

/-- The migration step is the identity when the keybindings key is absent. -/
theorem version10.convert_none {j : Json}
    (h : j.getKey? "keybindings" = none) :
    version10.convertVersion10to11 j = .ok j := by
  unfold version10.convertVersion10to11
  rw [h]

/-- The migration step on a present keybindings array parses the old
keybindings and writes back the migrated document. -/
theorem version10.convert_arr {j : Json} {kjs : List Json}
    (h : j.getKey? "keybindings" = some (.arr kjs)) :
    version10.convertVersion10to11 j
      = (mapExcept version10.fromJsonKeybinding kjs) >>= fun kbs =>
          pure (version10.migratedDoc j kbs) := by
  unfold version10.convertVersion10to11
  rw [h]

/-- The migration step on a present non-array keybindings value is the json
type error raised by the std vector get. -/
theorem version10.convert_not_arr {j kj : Json}
    (h : j.getKey? "keybindings" = some kj)
    (hk : ∀ kjs, kj ≠ .arr kjs) :
    version10.convertVersion10to11 j
      = .error ⟨.Error, "type_error: keybindings is not an array"⟩ := by
  unfold version10.convertVersion10to11
  rw [h]
  cases kj <;> first | rfl | exact absurd rfl (hk _)

/-- The version field of the migrated document reads back as 1.1. -/
theorem migratedDoc_atKey_version (l : List (String × Json))
    (kbs : List version10.Keybinding) :
    (version10.migratedDoc (Json.obj l) kbs).atKey "version"
      = .ok (toJsonVersion ⟨1, 1⟩) := by
  simp only [version10.migratedDoc, Json.setKey, Json.atKey, Json.getKey?,
    lookupKey_setPairs_self]

/-- A version 1.0 document with no keybindings section at all. -/
def c3doc : Json :=
  .obj [("version", .obj [("major", .num 1), ("minor", .num 0)])]

/-- The profile c3doc decodes to: everything defaulted, version still 1.0. -/
def c3profile : Profile := { version := ⟨1, 0⟩ }

/-- Counterexample to claim C3 as stated: a version 1.0 document with no
keybindings section decodes successfully, but the early return of
convertVersion10to11 skips the version rewrite, so the decoded version is
still 1.0, not the declared current version. -/
theorem migration_version_counterexample :
    decodeProfile c3doc = .ok c3profile ∧
    c3profile.version ≠ Profile.CurrentVersion :=
  ⟨rfl, by decide⟩

/-- Claim C3 amended: for a version 1.0 document that decodes successfully,
the decoded version equals the current version exactly when the document has
a keybindings section (so the migration step actually runs); when the
keybindings section is absent the step returns the tree unchanged, version
field included, and the decoded version remains 1.0. -/
theorem migration_version_invariant (doc : Json) (p : Profile) (vj : Json)
    (hat : doc.atKey "version" = .ok vj)
    (hv : fromJsonVersion vj = .ok ⟨1, 0⟩)
    (hdec : decodeProfile doc = .ok p) :
    (doc.getKey? "keybindings" = none → p.version = ⟨1, 0⟩) ∧
    (∀ kj, doc.getKey? "keybindings" = some kj →
      p.version = Profile.CurrentVersion) := by
  obtain ⟨vj0, v0, dv, h1, h2, h3, -, -, -, -, -, -, -, -, -, -, -, hver, -⟩ :=
    decodeProfile_inv hdec
  rw [hat] at h1
  injection h1 with h1
  subst h1
  rw [hv] at h2
  injection h2 with h2
  subst h2
  rw [migrate, if_pos (show _ ∧ _ from ⟨rfl, rfl⟩)] at h3
  constructor
  · intro hnone
    rw [version10.convert_none hnone, ok_bind, hat, ok_bind, hv, ok_bind,
      pure_eq_ok] at h3
    injection h3 with h3
    subst h3
    exact hver
  · intro kj hsome
    have hobj : ∃ l, doc = Json.obj l := by
      cases doc with
      | obj l => exact ⟨l, rfl⟩
      | null => simp [Json.getKey?] at hsome
      | str s => simp [Json.getKey?] at hsome
      | num n => simp [Json.getKey?] at hsome
      | bool b => simp [Json.getKey?] at hsome
      | arr a => simp [Json.getKey?] at hsome
    obtain ⟨l, rfl⟩ := hobj
    cases kj with
    | arr kjs =>
      rw [version10.convert_arr hsome] at h3
      cases hmp : mapExcept version10.fromJsonKeybinding kjs with
      | error e =>
        rw [hmp, error_bind, error_bind] at h3
        exact Except.noConfusion h3
      | ok kbs =>
        rw [hmp, ok_bind, pure_eq_ok, ok_bind,
          migratedDoc_atKey_version, ok_bind, rt_version, ok_bind,
          pure_eq_ok] at h3
        injection h3 with h3
        subst h3
        exact hver
    | null =>
      rw [version10.convert_not_arr hsome (by intro kjs h; cases h),
        error_bind] at h3
      exact Except.noConfusion h3
    | str s =>
      rw [version10.convert_not_arr hsome (by intro kjs h; cases h),
        error_bind] at h3
      exact Except.noConfusion h3
    | num n =>
      rw [version10.convert_not_arr hsome (by intro kjs h; cases h),
        error_bind] at h3
      exact Except.noConfusion h3
    | bool b =>
      rw [version10.convert_not_arr hsome (by intro kjs h; cases h),
        error_bind] at h3
      exact Except.noConfusion h3
    | obj l2 =>
      rw [version10.convert_not_arr hsome (by intro kjs h; cases h),
        error_bind] at h3
      exact Except.noConfusion h3

/-- Witness for C3 amended: both branches exercised on concrete documents. -/
theorem migration_version_invariant_witness :
    ((c3doc.getKey? "keybindings" = none → c3profile.version = ⟨1, 0⟩) ∧
      (∀ kj, c3doc.getKey? "keybindings" = some kj →
        c3profile.version = Profile.CurrentVersion)) ∧
    (∀ kj, (Json.obj [("version", .obj [("major", .num 1), ("minor", .num 0)]),
        ("keybindings", .arr [])]).getKey? "keybindings" = some kj →
      (Profile.mk ⟨1, 1⟩ [] none [] [] [] [] none [] none [] [] false).version
        = Profile.CurrentVersion) :=
  ⟨migration_version_invariant c3doc c3profile
      (.obj [("major", .num 1), ("minor", .num 0)]) rfl rfl rfl,
   (migration_version_invariant
      (.obj [("version", .obj [("major", .num 1), ("minor", .num 0)]),
             ("keybindings", .arr [])])
      (Profile.mk ⟨1, 1⟩ [] none [] [] [] [] none [] none [] [] false)
      (.obj [("major", .num 1), ("minor", .num 0)]) rfl rfl rfl).2⟩

/-! ## Claim C1: migration correctness 1.0 to 1.1 -/

/-- The actions array written by the migration reads back at its key. -/
theorem migratedDoc_getKey_actions (l : List (String × Json))
    (kbs : List version10.Keybinding) :
    (version10.migratedDoc (Json.obj l) kbs).getKey? "actions"
      = some (.arr ((kbs.enum.map fun ik => version10.actionAt ik.1 ik.2).map
          toJsonAction)) := by
  simp only [version10.migratedDoc, Json.setKey, Json.getKey?]
  rw [lookupKey_setPairs_ne _ _ _ _ (by decide),
    lookupKey_setPairs_ne _ _ _ _ (by decide),
    lookupKey_setPairs_self]

/-- The reduced keybindings array written by the migration reads back at its
key. -/
theorem migratedDoc_getKey_keybindings (l : List (String × Json))
    (kbs : List version10.Keybinding) :
    (version10.migratedDoc (Json.obj l) kbs).getKey? "keybindings"
      = some (.arr ((kbs.enum.map fun ik =>
          version10.keybindingAt ik.1 ik.2).map toJsonKeybinding)) := by
  simp only [version10.migratedDoc, Json.setKey, Json.getKey?]
  rw [lookupKey_setPairs_ne _ _ _ _ (by decide),
    lookupKey_setPairs_self]

/-- Claim C1: decoding a version 1.0 document whose keybindings list parses
as N old-format keybindings yields N actions, the i-th carrying the
identifier profile.keybind.i and the documentation, name, guiPath, isLocal
and script of the i-th old keybinding, and N keybindings in the same order,
the i-th keeping its original key and referencing profile.keybind.i. -/
theorem migration_correctness (doc : Json) (p : Profile) (vj : Json)
    (kjs : List Json) (kbs : List version10.Keybinding)
    (hat : doc.atKey "version" = .ok vj)
    (hv : fromJsonVersion vj = .ok ⟨1, 0⟩)
    (hk : doc.getKey? "keybindings" = some (.arr kjs))
    (hparse : mapExcept version10.fromJsonKeybinding kjs = .ok kbs)
    (hdec : decodeProfile doc = .ok p) :
    p.actions = kbs.enum.map (fun ik => version10.actionAt ik.1 ik.2) ∧
    p.keybindings
      = kbs.enum.map (fun ik => version10.keybindingAt ik.1 ik.2) := by
  obtain ⟨vj0, v0, dv, h1, h2, h3, -, -, -, -, h8, h9, -, -, -, -, -, -, -⟩ :=
    decodeProfile_inv hdec
  rw [hat] at h1
  injection h1 with h1
  subst h1
  rw [hv] at h2
  injection h2 with h2
  subst h2
  have hobj : ∃ l, doc = Json.obj l := by
    cases doc with
    | obj l => exact ⟨l, rfl⟩
    | null => simp [Json.getKey?] at hk
    | str s => simp [Json.getKey?] at hk
    | num n => simp [Json.getKey?] at hk
    | bool b => simp [Json.getKey?] at hk
    | arr a => simp [Json.getKey?] at hk
  obtain ⟨l, rfl⟩ := hobj
  rw [migrate, if_pos (show _ ∧ _ from ⟨rfl, rfl⟩),
    version10.convert_arr hk, hparse, ok_bind, pure_eq_ok, ok_bind,
    migratedDoc_atKey_version, ok_bind, rt_version, ok_bind,
    pure_eq_ok] at h3
  injection h3 with h3
  subst h3
  constructor
  · have ha : sectionList (version10.migratedDoc (Json.obj l) kbs) "actions"
        fromJsonAction
        = .ok (kbs.enum.map fun ik => version10.actionAt ik.1 ik.2) := by
      simp only [sectionList, migratedDoc_getKey_actions]
      exact mapExcept_roundtrip rt_action _
    rw [ha] at h8
    injection h8 with h8
    exact h8.symm
  · have hb : sectionList (version10.migratedDoc (Json.obj l) kbs)
        "keybindings" fromJsonKeybinding
        = .ok (kbs.enum.map fun ik => version10.keybindingAt ik.1 ik.2) := by
      simp only [sectionList, migratedDoc_getKey_keybindings]
      exact mapExcept_roundtrip rt_keybinding _
    rw [hb] at h9
    injection h9 with h9
    exact h9.symm

/-- A version 1.0 document with two old-format keybindings. -/
def c1doc : Json :=
  .obj [("version", .obj [("major", .num 1), ("minor", .num 0)]),
        ("keybindings", .arr
          [.obj [("key", .str "A"), ("documentation", .str "d0"),
                 ("name", .str "n0"), ("gui_path", .str "g0"),
                 ("is_local", .bool true), ("script", .str "s0")],
           .obj [("key", .str "B"), ("documentation", .str "d1"),
                 ("name", .str "n1"), ("gui_path", .str "g1"),
                 ("is_local", .bool false), ("script", .str "s1")]])]

/-- The two old keybindings carried by c1doc. -/
def c1kbs : List version10.Keybinding :=
  [⟨⟨"A"⟩, "d0", "n0", "g0", true, "s0"⟩,
   ⟨⟨"B"⟩, "d1", "n1", "g1", false, "s1"⟩]

/-- The profile c1doc decodes to after migration. -/
def c1profile : Profile :=
  { version := ⟨1, 1⟩
    actions :=
      [⟨"profile.keybind.0", "d0", "n0", "g0", true, "s0"⟩,
       ⟨"profile.keybind.1", "d1", "n1", "g1", false, "s1"⟩]
    keybindings :=
      [⟨⟨"A"⟩, "profile.keybind.0"⟩, ⟨⟨"B"⟩, "profile.keybind.1"⟩] }

/-- Witness for C1 at the concrete two-keybinding document. -/
theorem migration_correctness_witness :
    c1profile.actions
      = c1kbs.enum.map (fun ik => version10.actionAt ik.1 ik.2) ∧
    c1profile.keybindings
      = c1kbs.enum.map (fun ik => version10.keybindingAt ik.1 ik.2) :=
  migration_correctness c1doc c1profile
    (.obj [("major", .num 1), ("minor", .num 0)])
    [.obj [("key", .str "A"), ("documentation", .str "d0"),
           ("name", .str "n0"), ("gui_path", .str "g0"),
           ("is_local", .bool true), ("script", .str "s0")],
     .obj [("key", .str "B"), ("documentation", .str "d1"),
           ("name", .str "n1"), ("gui_path", .str "g1"),
           ("is_local", .bool false), ("script", .str "s1")]]
    c1kbs rfl rfl rfl rfl rfl

/-! ## Claim C7: camera mutual exclusivity -/

/-- A document with an unknown camera discriminator and a malformed modules
section: decoding fails, but on the modules section, which is examined
before the camera dispatch is reached. -/
def c7counterDoc : Json :=
  .obj [("version", .obj [("major", .num 1), ("minor", .num 1)]),
        ("modules", .arr [.num 5]),
        ("camera", .obj [("type", .str "bogus")])]

/-- Counterexample to claim C7 as stated: this document has a camera section
whose discriminator matches neither constant, yet decoding fails with the
modules schema error, not with the Unknown camera type message the claim
prescribes for every such document. -/
theorem camera_mutual_exclusivity_counterexample :
    decodeProfile c7counterDoc
      = .error ⟨.Error, "module.name field is missing"⟩ ∧
    ("module.name field is missing" : String) ≠ "Unknown camera type" :=
  ⟨rfl, by decide⟩

/-- Claim C7 amended: on a document whose other sections decode without
error (and which needs no migration), a camera section whose discriminator
compares equal to neither variant constant makes decoding fail with exactly
the fatal Unknown camera type error; when the discriminator matches the
CameraNavState constant the decoded camera is that variant, and likewise for
CameraGoToGeo. -/
theorem camera_mutual_exclusivity (doc vj : Json) (v0 : Profile.Version)
    (c t : Json)
    (ms : List Profile.Module) (mt : Option Profile.Meta)
    (asx : List String) (ps : List Profile.Property)
    (ac : List Profile.Action) (kb : List Profile.Keybinding)
    (tm : Option Profile.Time) (dt : List JNumber)
    (hat : doc.atKey "version" = .ok vj)
    (hv : fromJsonVersion vj = .ok v0)
    (h10 : ¬(v0.major = 1 ∧ v0.minor = 0))
    (hmod : sectionList doc "modules" fromJsonModule = .ok ms)
    (hmeta : sectionOpt doc "meta" fromJsonMeta = .ok mt)
    (hassets : sectionList doc "assets" Json.getStr = .ok asx)
    (hprops : sectionList doc "properties" fromJsonProperty = .ok ps)
    (hacts : sectionList doc "actions" fromJsonAction = .ok ac)
    (hkbs : sectionList doc "keybindings" fromJsonKeybinding = .ok kb)
    (htime : sectionOpt doc "time" fromJsonTime = .ok tm)
    (hdts : sectionList doc "delta_times" Json.getNum = .ok dt)
    (hcam : doc.getKey? "camera" = some c)
    (ht : c.index "type" = .ok t) :
    (jsonEqString t Profile.CameraNavState.typeTag = false →
     jsonEqString t Profile.CameraGoToGeo.typeTag = false →
      decodeProfile doc = .error ⟨.Error, "Unknown camera type"⟩) ∧
    (∀ p, decodeProfile doc = .ok p →
      (jsonEqString t Profile.CameraNavState.typeTag = true →
        ∃ cn, p.camera = some (.navState cn)) ∧
      (jsonEqString t Profile.CameraNavState.typeTag = false →
       jsonEqString t Profile.CameraGoToGeo.typeTag = true →
        ∃ cg, p.camera = some (.goToGeo cg))) := by
  have hmig : migrate doc v0 = .ok (doc, v0) := by
    rw [migrate, if_neg h10]
  constructor
  · intro hn1 hn2
    have hcamerr : decodeCamera doc
        = .error ⟨.Error, "Unknown camera type"⟩ := by
      simp only [decodeCamera, hcam, decodeCameraValue, ht, hn1, hn2]
      simp
    simp only [decodeProfile, hat, ok_bind, hv, hmig, hmod, hmeta,
      hassets, hprops, hacts, hkbs, htime, hdts, hcamerr, error_bind]
  · intro p hdec
    obtain ⟨vj0, v00, dv, h1, h2, h3, -, -, -, -, -, -, -, -, h12, -, -, -, -⟩ :=
      decodeProfile_inv hdec
    rw [hat] at h1
    injection h1 with h1
    subst h1
    rw [hv] at h2
    injection h2 with h2
    subst h2
    rw [hmig] at h3
    injection h3 with h3
    subst h3
    constructor
    · intro htn
      simp only [decodeCamera, hcam, decodeCameraValue, ht, htn] at h12
      cases hfc : fromJsonCameraNavState c with
      | error e =>
        rw [hfc] at h12
        simp at h12
      | ok cn =>
        rw [hfc] at h12
        simp only [if_pos rfl] at h12
        injection h12 with h12
        exact ⟨cn, h12.symm⟩
    · intro htn htg
      simp only [decodeCamera, hcam, decodeCameraValue, ht, htn, htg] at h12
      cases hfc : fromJsonCameraGoToGeo c with
      | error e =>
        rw [hfc] at h12
        simp at h12
      | ok cg =>
        rw [hfc] at h12
        simp only [if_pos rfl] at h12
        injection h12 with h12
        exact ⟨cg, h12.symm⟩

/-- A document whose camera discriminator matches neither constant and
whose other sections are all absent. -/
def c7badDoc : Json :=
  .obj [("version", .obj [("major", .num 1), ("minor", .num 1)]),
        ("camera", .obj [("type", .str "bogus")])]

/-- A document with a well formed CameraNavState camera. -/
def c7navDoc : Json :=
  .obj [("version", .obj [("major", .num 1), ("minor", .num 1)]),
        ("camera", .obj [("type", .str "navState"),
                         ("anchor", .str "Earth"),
                         ("frame", .str "Root"),
                         ("position", .obj [("x", .num 1), ("y", .num 2),
                                            ("z", .num 3)])])]

/-- The profile c7navDoc decodes to. -/
def c7navProfile : Profile :=
  { version := ⟨1, 1⟩
    camera := some (.navState ⟨"Earth", none, "Root", ⟨1, 2, 3⟩, none,
      none, none⟩) }

/-- A document with a well formed CameraGoToGeo camera. -/
def c7geoDoc : Json :=
  .obj [("version", .obj [("major", .num 1), ("minor", .num 1)]),
        ("camera", .obj [("type", .str "goToGeo"),
                         ("anchor", .str "Earth"),
                         ("latitude", .num 10),
                         ("longitude", .num 20)])]

/-- The profile c7geoDoc decodes to. -/
def c7geoProfile : Profile :=
  { version := ⟨1, 1⟩
    camera := some (.goToGeo ⟨"Earth", 10, 20, none⟩) }

/-- Witness for C7 amended: the rejection and both accepted variants, on
concrete documents. -/
theorem camera_mutual_exclusivity_witness :
    decodeProfile c7badDoc = .error ⟨.Error, "Unknown camera type"⟩ ∧
    (∃ cn, c7navProfile.camera = some (.navState cn)) ∧
    (∃ cg, c7geoProfile.camera = some (.goToGeo cg)) :=
  ⟨(camera_mutual_exclusivity c7badDoc
      (.obj [("major", .num 1), ("minor", .num 1)]) ⟨1, 1⟩
      (.obj [("type", .str "bogus")]) (.str "bogus")
      [] none [] [] [] [] none []
      rfl rfl (by decide) rfl rfl rfl rfl rfl rfl rfl rfl rfl rfl).1 rfl rfl,
   ((camera_mutual_exclusivity c7navDoc
      (.obj [("major", .num 1), ("minor", .num 1)]) ⟨1, 1⟩
      (.obj [("type", .str "navState"), ("anchor", .str "Earth"),
             ("frame", .str "Root"),
             ("position", .obj [("x", .num 1), ("y", .num 2), ("z", .num 3)])])
      (.str "navState") [] none [] [] [] [] none []
      rfl rfl (by decide) rfl rfl rfl rfl rfl rfl rfl rfl rfl rfl).2
      c7navProfile rfl).1 rfl,
   ((camera_mutual_exclusivity c7geoDoc
      (.obj [("major", .num 1), ("minor", .num 1)]) ⟨1, 1⟩
      (.obj [("type", .str "goToGeo"), ("anchor", .str "Earth"),
             ("latitude", .num 10), ("longitude", .num 20)])
      (.str "goToGeo") [] none [] [] [] [] none []
      rfl rfl (by decide) rfl rfl rfl rfl rfl rfl rfl rfl rfl rfl).2
      c7geoProfile rfl).2 rfl rfl⟩
